import Mathlib

/-!
Verification development for the bpdm-upload-tool CSV/JSON codec
(`src/server/csv_tools.py`, `src/server/convert_csv.py`,
`src/server/convert_json.py`, `src/server/file_format.py`,
`src/server/string_tools.py`).

The Python code is shallowly embedded: Python objects built by `setattr`
become association lists from attribute names to values, Python dicts become
association lists with in-place update (last write wins, insertion order
preserved), raised exceptions become `Except` errors, and the decode loop
becomes explicit state passing over the row list.  Python floats are modelled
as exact scaled decimals (`num * 10 ^ -exp`), which is faithful for the
decimal literals the program handles.
-/

namespace Bpdm

/-- A Python float value, modelled as the exact scaled decimal
`num * 10 ^ -exp`.  Python's `float`/`str` round-trip is the identity on the
short decimal literals handled by this program, so exact decimals are a
faithful model of the values this code produces and prints. -/
structure Dec10 where
  num : Int
  exp : Nat
deriving DecidableEq, Repr

/-- A Python float: a finite value (an exact scaled decimal), a signed
infinity (`inf` carries `true` for the negative one), or `nan` — the three
kinds of value `float()` can produce. -/
inductive PyFloat where
  | finite : Dec10 → PyFloat
  | inf : Bool → PyFloat
  | nan : PyFloat
deriving DecidableEq, Repr

/-- Python unary minus on a float (`float("-nan")` is still `nan`). -/
def PyFloat.neg : PyFloat → PyFloat
  | .finite d => .finite ⟨-d.num, d.exp⟩
  | .inf b => .inf (!b)
  | .nan => .nan

/-- A Python runtime value as stored on decoded records: strings, ints,
floats, bools, `None`, enum members (by member name), ISO datetimes (kept as
their validated source text), lists and `setattr`-built objects. -/
inductive PyVal where
  | str : String → PyVal
  | int : Int → PyVal
  | float : PyFloat → PyVal
  | bool : Bool → PyVal
  | none : PyVal
  | enum : String → PyVal
  | date : String → PyVal
  | list : List PyVal → PyVal
  | obj : List (String × PyVal) → PyVal
deriving Repr

/-- A decoded record / a group element: attribute name to value, in
`setattr` order (Python objects preserve attribute insertion order). -/
abbrev Obj := List (String × PyVal)

/-- Python dict/`setattr` assignment: overwrite the existing entry in place,
otherwise append at the end (insertion order preserved). -/
def assocSet {α β : Type} [BEq α] : List (α × β) → α → β → List (α × β)
  | [], k, v => [(k, v)]
  | (k2, v2) :: rest, k, v =>
      if k == k2 then (k, v) :: rest else (k2, v2) :: assocSet rest k v

/-- Python dict lookup / `getattr`. -/
def assocGet {α β : Type} [BEq α] (l : List (α × β)) (k : α) : Option β :=
  (l.find? (fun kv => kv.1 == k)).map (fun kv => kv.2)

/-- Python `in` test on a dict. -/
def assocHas {α β : Type} [BEq α] (l : List (α × β)) (k : α) : Bool :=
  (assocGet l k).isSome

/-! ## String primitives

The embedding works on character lists so that every operation the theorems
evaluate is a plain structural recursion. -/

/-- Python `str.strip()`: remove leading and trailing whitespace. -/
def strTrim (s : String) : String :=
  String.mk (((s.toList.dropWhile Char.isWhitespace).reverse.dropWhile
      Char.isWhitespace).reverse)

/-- Python `str.replace(a, b)` for one-character `a` and `b` (the only form
this program uses). -/
def charReplace (s : String) (a b : Char) : String :=
  String.mk (s.toList.map (fun c => if c == a then b else c))

/-- Python `str.lower()` (the cells this program lowers are ASCII). -/
def strToLower (s : String) : String :=
  String.mk (s.toList.map Char.toLower)

/-- Does the second list start with the first? -/
def leadsWith : List Char → List Char → Bool
  | [], _ => true
  | _ :: _, [] => false
  | p :: ps, c :: cs => p == c && leadsWith ps cs

/-- Python `str.startswith`. -/
def strStartsWith (s pre : String) : Bool := leadsWith pre.toList s.toList

/-- Python `str.endswith`. -/
def strEndsWith (s suf : String) : Bool :=
  leadsWith suf.toList.reverse s.toList.reverse

/-- Lexicographic comparison by code point (Python `<` on strings). -/
def charListLt : List Char → List Char → Bool
  | [], [] => false
  | [], _ :: _ => true
  | _ :: _, [] => false
  | a :: as, b :: bs => if a < b then true else if b < a then false else charListLt as bs

/-! ## string_tools.py -/

/-- Python `str.split()` with no separator: the whitespace-separated words
(`cur` is the reversed word being read, `acc` the reversed word list). -/
def wordsAux (cur : List Char) (acc : List (List Char)) :
    List Char → List (List Char)
  | [] => (if cur.isEmpty then acc else cur.reverse :: acc).reverse
  | c :: rest =>
      if c.isWhitespace then
        if cur.isEmpty then wordsAux [] acc rest
        else wordsAux [] (cur.reverse :: acc) rest
      else wordsAux (c :: cur) acc rest

/-- Models `" ".join(...)`. -/
def joinSpace : List (List Char) → List Char
  | [] => []
  | [w] => w
  | w :: rest => w ++ ' ' :: joinSpace rest

/-- Embeds `string_tools.collapse`: strip leading/trailing whitespace and collapse
internal whitespace runs to one space (`" ".join(s.split())`). -/
def collapse (s : String) : String :=
  String.mk (joinSpace (wordsAux [] [] s.toList))

/-! ## csv_tools.py: make_attribute_name -/

/-- A character the regex `[^a-zA-Z0-9_]+` leaves untouched. -/
def isAttrChar (c : Char) : Bool :=
  c.isAlpha || c.isDigit || c == '_'

/-- Embeds `re_invalid_object_attribute_chars.sub("_", name)`: each maximal run of
invalid characters becomes a single underscore.  The flag records whether the
previous character was part of an invalid run. -/
def subInvalidRuns : Bool → List Char → List Char
  | _, [] => []
  | prevInvalid, c :: rest =>
      if isAttrChar c then c :: subInvalidRuns false rest
      else if prevInvalid then subInvalidRuns true rest
      else '_' :: subInvalidRuns true rest

/-- Embeds `csv_tools.make_attribute_name`: replace invalid character runs by `_`
and prefix `_` when the result starts with a digit.  (On the empty string the
Python indexes `result[0]` of an empty string; that case is unreachable for
the column names this repository uses.) -/
def make_attribute_name (name : String) : String :=
  let result := String.mk (subInvalidRuns false name.toList)
  match result.toList with
  | [] => result
  | c :: _ => if c.isDigit then "_" ++ result else result

/-! ## csv_tools.py: data model -/

/-- The declared type of a column (`column_type`): `str`, `int`, `float`,
`datetime.datetime`, a `bool`, an `Enum` subclass (modelled by its member
names) or a set of strings. -/
inductive ColType where
  | str | int | float | bool | datetime
  | enumT : List String → ColType
  | setT : List String → ColType
deriving DecidableEq, Repr

/-- The `Empty` policy of a column: the class constants `NotOK`, `ToNone`
and `OK`, or an arbitrary string used as the default value. -/
inductive EmptyPolicy where
  | NotOK | ToNone | OK
  | defaultVal : String → EmptyPolicy
deriving DecidableEq, Repr

/-- Embeds `csv_tools.Column`.  `destination_name_arg` is the constructor's
`destination_name` parameter (`None` when not provided). -/
structure Column where
  column_name : String
  column_type : ColType
  empty : EmptyPolicy
  optional : Bool := false
  destination_name_arg : Option String := Option.none
deriving DecidableEq, Repr

/-- Embeds `Column.destination_name`: the provided name, else
`make_attribute_name(column_name)`. -/
def Column.destination_name (c : Column) : String :=
  c.destination_name_arg.getD (make_attribute_name c.column_name)

/-- Embeds `Column.destination_name_provided`. -/
def Column.destination_name_provided (c : Column) : Bool :=
  c.destination_name_arg.isSome

/-- Embeds `Column.column_name_for_array_object`. -/
def Column.column_name_for_array_object (c : Column) (prefixlen : Nat) : String :=
  if c.destination_name_provided then c.destination_name
  else make_attribute_name (c.column_name.drop prefixlen)

/-- Embeds `csv_tools.ArrayGroup`.  `prefixName` is the constructor's `prefix`
parameter.  `initObj` models `make_type`: the attributes (with their `None`
defaults) that the group's element constructor sets, `[]` for
`types.SimpleNamespace` (which starts with no attributes). -/
structure ArrayGroup where
  name : String
  prefixName : Option String := Option.none
  initObj : Obj := []
deriving Repr

/-- Embeds `csv_tools._create_array_object`: `None` for single-column groups, a
fresh element object otherwise. -/
def _create_array_object (ag : ArrayGroup) : Option Obj :=
  match ag.prefixName with
  | Option.none => Option.none
  | Option.some _ => Option.some ag.initObj

/-- The `CSVException`s `read_header_csv_with_reader` raises, one constructor
per raise site, carrying the data the message interpolates. -/
inductive CsvError where
  | duplicateColumn : String → CsvError
  | emptyOKNonString : String → CsvError
  | unknownRelatedColumn : String → CsvError
  | unknownIdentifierColumn : String → CsvError
  | unknownArrayColumn : String → CsvError
  | unknownArrayPrefixCol : String → CsvError
  | unknownColumn : String → CsvError
  | missingRequiredColumn : String → CsvError
  | fieldCount : Nat → Nat → Nat → CsvError
  | relatedViolation : Nat → List String → CsvError
  | duplicateIdentifier : Nat → String → CsvError
  | contNormalColumn : Nat → String → CsvError
  | contMultipleGroups : Nat → CsvError
  | contNoGroup : Nat → CsvError
  | emptyNotAllowed : Nat → String → CsvError
  | typeError : Nat → String → CsvError
  | internal : Nat → String → CsvError
deriving DecidableEq, Repr

/-- The spec's ContinuationError category (§7): identifier/grouping
invariant violations. -/
def CsvError.isContinuationError : CsvError → Bool
  | .duplicateIdentifier _ _ => true
  | .contNormalColumn _ _ => true
  | .contMultipleGroups _ => true
  | .contNoGroup _ => true
  | _ => false

/-- The spec's ValidationError category (§7): cell-level empty-policy/type
violations and related-column-set violations. -/
def CsvError.isValidationError : CsvError → Bool
  | .relatedViolation _ _ => true
  | .emptyNotAllowed _ _ => true
  | .typeError _ _ => true
  | _ => false

/-! ## csv_tools.py: cell parsing and conversion -/

/-- Digit list to number. -/
def digitsToNat (cs : List Char) : Nat :=
  cs.foldl (fun a c => a * 10 + (c.toNat - 48)) 0

/-- Python `int(value)`: optional sign then decimal digits.  (Python also
accepts surrounding whitespace and `_` digit separators; the decoded cells
here are whitespace-collapsed and the program only handles plain literals.) -/
def parseInt (s : String) : Option Int :=
  let core : List Char → Option Int := fun cs =>
    if cs ≠ [] && cs.all Char.isDigit then Option.some (Int.ofNat (digitsToNat cs))
    else Option.none
  match s.toList with
  | '-' :: rest => (core rest).map (fun i => -i)
  | '+' :: rest => core rest
  | cs => core cs

/-- Parses a run of decimal digits with single underscores allowed between
digits (Python's digit-separator rule: an underscore not followed by a digit
is an error).  Returns the value, the number of digits, and the remaining
characters. -/
def digitGroupAux (v n : Nat) : List Char → Option (Nat × Nat × List Char)
  | [] => Option.some (v, n, [])
  | ['_'] => Option.none
  | '_' :: c :: rest =>
      if c.isDigit then digitGroupAux (v * 10 + (c.toNat - 48)) (n + 1) rest
      else Option.none
  | c :: rest =>
      if c.isDigit then digitGroupAux (v * 10 + (c.toNat - 48)) (n + 1) rest
      else Option.some (v, n, c :: rest)

/-- A digit group must start with a digit. -/
def digitGroup : List Char → Option (Nat × Nat × List Char)
  | c :: rest =>
      if c.isDigit then digitGroupAux (c.toNat - 48) 1 rest
      else Option.none
  | [] => Option.none

/-- The exponent part after `e`/`E`: optional sign, then digits (with
underscore separators). -/
def parseExp (cs : List Char) : Option (Int × List Char) :=
  match cs with
  | '-' :: rest => (digitGroup rest).map (fun p => (-(Int.ofNat p.1), p.2.2))
  | '+' :: rest => (digitGroup rest).map (fun p => (Int.ofNat p.1, p.2.2))
  | _ => (digitGroup cs).map (fun p => (Int.ofNat p.1, p.2.2))

/-- Builds the scaled decimal `mantissa * 10 ^ (ex - nf)` where `nf` is the
number of fraction digits folded into the mantissa. -/
def mkDec10 (mantissa nf : Nat) (ex : Int) : Dec10 :=
  if (nf : Int) ≤ ex then
    ⟨Int.ofNat (mantissa * 10 ^ (ex - (nf : Int)).toNat), 0⟩
  else
    ⟨Int.ofNat mantissa, ((nf : Int) - ex).toNat⟩

/-- The numeric body of a Python float literal: optional integer digits,
optional `.` and fraction digits (at least one digit in total), optional
exponent; nothing may remain. -/
def parseFloatNumeric (cs : List Char) : Option PyFloat :=
  let step1 : Option (Nat × Nat × List Char) :=
    match cs with
    | c :: _ => if c.isDigit then digitGroup cs else Option.some (0, 0, cs)
    | [] => Option.some (0, 0, [])
  match step1 with
  | Option.none => Option.none
  | Option.some (vi, ni, rest1) =>
      let step2 : Option (Nat × Nat × List Char) :=
        match rest1 with
        | '.' :: rest2 =>
            (match rest2 with
             | c :: _ => if c.isDigit then digitGroup rest2 else Option.some (0, 0, rest2)
             | [] => Option.some (0, 0, []))
        | _ => Option.some (0, 0, rest1)
      match step2 with
      | Option.none => Option.none
      | Option.some (vf, nf, rest3) =>
          if ni + nf = 0 then Option.none
          else
            let step3 : Option (Int × List Char) :=
              match rest3 with
              | 'e' :: rest4 => parseExp rest4
              | 'E' :: rest4 => parseExp rest4
              | _ => Option.some (0, rest3)
            match step3 with
            | Option.none => Option.none
            | Option.some (ex, rest5) =>
                if rest5 = [] then
                  Option.some (.finite (mkDec10 (vi * 10 ^ nf + vf) nf ex))
                else Option.none

/-- A Python float literal after the sign: the `inf`/`infinity`/`nan`
spellings (case-insensitive) or a numeric literal. -/
def parseFloatUnsigned (cs : List Char) : Option PyFloat :=
  let low := cs.map Char.toLower
  if low = ['i', 'n', 'f'] || low = ['i', 'n', 'f', 'i', 'n', 'i', 't', 'y'] then
    Option.some (.inf false)
  else if low = ['n', 'a', 'n'] then Option.some .nan
  else parseFloatNumeric cs

/-- Embeds Python `float(value)`: surrounding whitespace is stripped, then an
optional sign followed by `inf`/`infinity`/`nan` (case-insensitive) or a
decimal literal — integer digits, optional fraction, optional `e`/`E`
exponent, with single underscores allowed between digits.  Finite results
are exact scaled decimals.  (Unicode digits and non-ASCII whitespace are not
modelled.) -/
def parseFloat (s : String) : Option PyFloat :=
  let cs := ((s.toList.dropWhile Char.isWhitespace).reverse.dropWhile
      Char.isWhitespace).reverse
  match cs with
  | '-' :: rest => (parseFloatUnsigned rest).map PyFloat.neg
  | '+' :: rest => parseFloatUnsigned rest
  | _ => parseFloatUnsigned cs

/-- Two-digit decimal in a range. -/
def twoDigitsIn (a b : Char) (lo hi : Nat) : Bool :=
  a.isDigit && b.isDigit &&
    (let v := (a.toNat - 48) * 10 + (b.toNat - 48)
     lo ≤ v && v ≤ hi)

/-- Recognises `HH:MM:SS` (seconds optional). -/
def isIsoTime : List Char → Bool
  | [h1, h2, ':', m1, m2] =>
      twoDigitsIn h1 h2 0 23 && twoDigitsIn m1 m2 0 59
  | [h1, h2, ':', m1, m2, ':', s1, s2] =>
      twoDigitsIn h1 h2 0 23 && twoDigitsIn m1 m2 0 59 && twoDigitsIn s1 s2 0 59
  | _ => false

/-- Embeds `datetime.datetime.fromisoformat`, as a recogniser for the common
`YYYY-MM-DD[ T HH:MM[:SS]]` forms (fractional seconds and offsets are not
used by this repository's data). -/
def isIsoDatetime (s : String) : Bool :=
  match s.toList with
  | y1 :: y2 :: y3 :: y4 :: '-' :: m1 :: m2 :: '-' :: d1 :: d2 :: rest =>
      y1.isDigit && y2.isDigit && y3.isDigit && y4.isDigit &&
      twoDigitsIn m1 m2 1 12 && twoDigitsIn d1 d2 1 31 &&
      (match rest with
       | [] => true
       | 'T' :: t => isIsoTime t
       | ' ' :: t => isIsoTime t
       | _ => false)
  | _ => false

/-- The type-conversion block of `read_header_csv_with_reader`
(`csv_tools.py` lines 392-428), for a non-`None` value. -/
def typeConvert (line : Nat) (col : Column) (value : String) : Except CsvError PyVal :=
  match col.column_type with
  | .str => Except.ok (.str value)
  | .int =>
      match parseInt value with
      | Option.some i => Except.ok (.int i)
      | Option.none => Except.error (.typeError line col.column_name)
  | .float =>
      match parseFloat (charReplace value ',' '.') with
      | Option.some d => Except.ok (.float d)
      | Option.none => Except.error (.typeError line col.column_name)
  | .datetime =>
      if isIsoDatetime value then Except.ok (.date value)
      else Except.error (.typeError line col.column_name)
  | .enumT names =>
      if names.contains value then Except.ok (.enum value)
      else Except.error (.typeError line col.column_name)
  | .setT names =>
      if names.contains value then Except.ok (.str value)
      else Except.error (.typeError line col.column_name)
  | .bool =>
      let vl := strToLower value
      if vl == "1" || vl == "true" then Except.ok (.bool true)
      else if vl == "0" || vl == "false" then Except.ok (.bool false)
      else Except.error (.typeError line col.column_name)

/-- The per-cell block of `read_header_csv_with_reader` (lines 377-430):
empty handling first, then type conversion.  Returns the converted value and
the `is_empty` flag. -/
def convertCell (line : Nat) (col : Column) (value : String) :
    Except CsvError (PyVal × Bool) :=
  if value = "" then
    match col.empty with
    | .NotOK => Except.error (.emptyNotAllowed line col.column_name)
    | .ToNone => Except.ok (.none, true)
    | .OK => (typeConvert line col "").map (fun v => (v, true))
    | .defaultVal d => (typeConvert line col d).map (fun v => (v, true))
  else
    (typeConvert line col value).map (fun v => (v, false))

/-! ## csv_tools.py: read_header_csv_with_reader, parameter checks and header
line processing -/

/-- Embeds `SpaceHandling`. -/
inductive SpaceHandling where
  | Keep | Strip | Collapse
deriving DecidableEq, Repr

/-- Apply the whitespace policy to one cell. -/
def applySpaceOne : SpaceHandling → String → String
  | .Keep, s => s
  | .Strip, s => strTrim s
  | .Collapse, s => collapse s

/-- The keyword parameters of `read_header_csv_with_reader`.  Only the
object-producing mode is modelled (`make_objects` a type or `True`):
`objInit` holds the attributes (with defaults) the record constructor sets,
`[]` for `types.SimpleNamespace`.  `related_columns` holds the sets exactly
as the callers pass them: sets of column-name strings. -/
structure ReaderConfig where
  header : List Column
  objInit : Obj := []
  space_handling : SpaceHandling := .Collapse
  ignore_unknown_columns : Bool := false
  related_columns : List (List String) := []
  identifier_column : Option String := Option.none
  array_groups : List ArrayGroup := []

/-- The lookup structures the reader builds before the row loop. -/
structure ReaderMaps where
  column_to_column_index : List (Column × Nat)
  column_index_to_column : List (Nat × Column)
  column_name_to_index : List (String × Nat)
  array_column_name_to_array_index : List (String × Nat)
  header_field_count : Nat
  identifier_column_index : Option Nat

/-- Parameter check 1: all column names unique (first duplicate errors). -/
def checkDuplicateColumns (seen : List String) : List Column → Except CsvError Unit
  | [] => Except.ok ()
  | c :: rest =>
      if seen.contains c.column_name then Except.error (.duplicateColumn c.column_name)
      else checkDuplicateColumns (c.column_name :: seen) rest

/-- Parameter check 2: `Empty.OK` only on string columns. -/
def checkEmptyOK : List Column → Except CsvError Unit
  | [] => Except.ok ()
  | c :: rest =>
      if c.empty == EmptyPolicy.OK && c.column_type != ColType.str then
        Except.error (.emptyOKNonString c.column_name)
      else checkEmptyOK rest

/-- Parameter check 3a: every related column name is a configured column. -/
def checkRelatedKnown (header_dict : List (String × Column)) :
    List (List String) → Except CsvError Unit
  | [] => Except.ok ()
  | rcs :: rest =>
      match rcs.find? (fun c => !(assocHas header_dict c)) with
      | Option.some c => Except.error (.unknownRelatedColumn c)
      | Option.none => checkRelatedKnown header_dict rest

/-- Build `array_column_name_to_array_index` (lines 216-230): single-column
groups map their own name, prefixed groups map every configured column whose
name starts with the prefix; a group matching nothing errors. -/
def buildArrayColumnMap (header : List Column) (header_dict : List (String × Column))
    (idx : Nat) (acc : List (String × Nat)) :
    List ArrayGroup → Except CsvError (List (String × Nat))
  | [] => Except.ok acc
  | ag :: rest =>
      match ag.prefixName with
      | Option.none =>
          if assocHas header_dict ag.name then
            buildArrayColumnMap header header_dict (idx + 1)
              (assocSet acc ag.name idx) rest
          else Except.error (.unknownArrayColumn ag.name)
      | Option.some p =>
          let matching := header.filter (fun h => strStartsWith h.column_name p)
          if matching.isEmpty then Except.error (.unknownArrayPrefixCol p)
          else
            buildArrayColumnMap header header_dict (idx + 1)
              (matching.foldl (fun a h => assocSet a h.column_name idx) acc) rest

/-- Process the header line (lines 234-247): map each file column position to
its configured `Column`; unknown names error unless ignoring is requested.
The three accumulators are the reader's dicts, updated with dict
semantics. -/
def processHeaderLine (header_dict : List (String × Column)) (ign : Bool)
    (col_nr : Nat)
    (acc : List (Column × Nat) × List (Nat × Column) × List (String × Nat)) :
    List String →
    Except CsvError (List (Column × Nat) × List (Nat × Column) × List (String × Nat))
  | [] => Except.ok acc
  | colname :: rest =>
      let cs := strTrim colname
      match assocGet header_dict cs with
      | Option.some col =>
          processHeaderLine header_dict ign (col_nr + 1)
            (assocSet acc.1 col col_nr,
             assocSet acc.2.1 col_nr col,
             assocSet acc.2.2 cs col_nr) rest
      | Option.none =>
          if ign then processHeaderLine header_dict ign (col_nr + 1) acc rest
          else Except.error (.unknownColumn colname)

/-- Required-column check (lines 250-252). -/
def checkRequired (cti : List (Column × Nat)) : List Column → Except CsvError Unit
  | [] => Except.ok ()
  | c :: rest =>
      if !c.optional && !(assocHas cti c) then
        Except.error (.missingRequiredColumn c.column_name)
      else checkRequired cti rest

/-- All parameter checks and header-line processing of
`read_header_csv_with_reader` up to the start of the row loop. -/
def buildReaderMaps (cfg : ReaderConfig) (headerline : List String) :
    Except CsvError ReaderMaps := do
  let header_dict := cfg.header.foldl (fun d c => assocSet d c.column_name c) []
  checkDuplicateColumns [] cfg.header
  checkEmptyOK cfg.header
  checkRelatedKnown header_dict cfg.related_columns
  match cfg.identifier_column with
  | Option.some name =>
      if !(assocHas header_dict name) then
        Except.error (.unknownIdentifierColumn name)
      else Except.ok ()
  | Option.none => Except.ok ()
  let acnai ← buildArrayColumnMap cfg.header header_dict 0 [] cfg.array_groups
  let (cti, cic, cnti) ← processHeaderLine header_dict cfg.ignore_unknown_columns
      0 ([], [], []) headerline
  checkRequired cti cfg.header
  let idIdx ← match cfg.identifier_column with
    | Option.none => Except.ok Option.none
    | Option.some name =>
        match assocGet cnti name with
        | Option.some i => Except.ok (Option.some i)
        -- Python: `column_name_to_index[identifier_column]` raises KeyError
        -- when the identifier column is configured but absent from the file.
        | Option.none => Except.error (.internal 1 "identifier column not in file header")
  Except.ok { column_to_column_index := cti,
              column_index_to_column := cic,
              column_name_to_index := cnti,
              array_column_name_to_array_index := acnai,
              header_field_count := headerline.length,
              identifier_column_index := idIdx }

/-! ## csv_tools.py: the row loop -/

/-- Reads `row[n]` (the field-count check guarantees mapped indexes are in
range). -/
def cell (row : List String) (n : Nat) : String := row.getD n ""

/-- Python `c in column_to_column_index` / `column_to_column_index[c]` where
the dict keys are `Column` objects and `c` is a related-column **name**
(a `str`): dict membership compares keys with `==`, and a `Column` instance
(no custom `__eq__`) never equals a `str`, so the lookup always misses. -/
def pyColumnEqStr (_c : Column) (_s : String) : Bool := false

/-- Find a related-column name among the `Column`-keyed entries of
`column_to_column_index` (see `pyColumnEqStr`). -/
def columnDictFindStr (d : List (Column × Nat)) (s : String) : Option Nat :=
  ((d.find? (fun kv => pyColumnEqStr kv.1 s)).map (fun kv => kv.2))

/-- The related-columns check (lines 274-284), as the code executes it: for
each member, when the member is found in `column_to_column_index` record
whether its cell is empty, otherwise record `False`; error when the recorded
states are mixed. -/
def relatedCheck (line : Nat) (cti : List (Column × Nat)) (row : List String) :
    List (List String) → Except CsvError Unit
  | [] => Except.ok ()
  | related :: rest =>
      let empty_state := related.map (fun c =>
        match columnDictFindStr cti c with
        | Option.some idx => decide (cell row idx = "")
        | Option.none => false)
      if empty_state.any id && !(empty_state.all id) then
        Except.error (.relatedViolation line related)
      else relatedCheck line cti row rest

/-- Row-role determination (lines 286-300): `Option.none` when the row is a
continuation of the previous record, otherwise the updated
(`previous_identifier`, `done_identifiers`) pair for a new record. -/
def classifyRowRole (line : Nat) (idIdx : Option Nat) (row : List String)
    (prevId : Option String) (doneIds : List String) :
    Except CsvError (Option (Option String × List String)) :=
  match idIdx with
  | Option.none => Except.ok (Option.some (prevId, doneIds))
  | Option.some i =>
      let identifier := cell row i
      if Option.some identifier ≠ prevId then
        if doneIds.contains identifier then
          Except.error (.duplicateIdentifier line identifier)
        else Except.ok (Option.some (Option.some identifier, identifier :: doneIds))
      else Except.ok Option.none

/-- Embeds `ag.name.replace(".", "_")` used when pre-creating the group lists. -/
def nameDotsToUnderscore (s : String) : String := charReplace s '.' '_'

/-- Embeds `getattr(dest, name).append(v)` for a list-valued attribute (a missing or
non-list attribute would raise in Python; modelled as an internal error). -/
def appendToListAttr (line : Nat) (o : Obj) (k : String) (v : PyVal) :
    Except CsvError Obj :=
  match assocGet o k with
  | Option.some (.list xs) => Except.ok (assocSet o k (.list (xs ++ [v])))
  | _ => Except.error (.internal line "attribute is not a list")

/-- The accumulator of the new-record column loop: the record being built and
the per-group pending data (`array_group_data`) and used flags
(`array_group_used`). -/
structure NewRowAcc where
  dest : Obj
  agData : List PyVal
  agUsed : List Bool

/-- Embeds `array_group_data` as created at lines 322-326: `None` for single-column
groups, the freshly constructed element object otherwise. -/
def initAgData (ags : List ArrayGroup) : List PyVal :=
  ags.map (fun ag =>
    match _create_array_object ag with
    | Option.some o => PyVal.obj o
    | Option.none => PyVal.none)

/-- The column loop for a new-record row (lines 368-456): convert every
mapped cell; normal columns assign to the record, array columns accumulate in
their group's pending data. -/
def newRowCols (cfg : ReaderConfig) (maps : ReaderMaps) (line : Nat)
    (row : List String) (acc : NewRowAcc) :
    List (Nat × Column) → Except CsvError NewRowAcc
  | [] => Except.ok acc
  | (n, col) :: rest => do
      let value := cell row n
      let (cv, isEmpty) ← convertCell line col value
      match assocGet maps.array_column_name_to_array_index col.column_name with
      | Option.none =>
          newRowCols cfg maps line row
            { acc with dest := assocSet acc.dest col.destination_name cv } rest
      | Option.some i =>
          let used := if !isEmpty then acc.agUsed.set i true else acc.agUsed
          match cfg.array_groups.get? i with
          | Option.none => Except.error (.internal line "array group index out of range")
          | Option.some ag =>
              match ag.prefixName with
              | Option.none =>
                  newRowCols cfg maps line row
                    { acc with agData := acc.agData.set i cv, agUsed := used } rest
              | Option.some p =>
                  match acc.agData.get? i with
                  | Option.some (.obj o) =>
                      newRowCols cfg maps line row
                        { acc with
                          agData := acc.agData.set i
                            (.obj (assocSet o (col.column_name_for_array_object p.length) cv)),
                          agUsed := used } rest
                  | _ => Except.error (.internal line "array group data is not an object")

/-- Lines 472-479: append each group's pending element to its list when the
group received at least one non-empty value on this row. -/
def appendUsedGroups (line : Nat) (idx : Nat) (agData : List PyVal)
    (agUsed : List Bool) (dest : Obj) :
    List ArrayGroup → Except CsvError Obj
  | [] => Except.ok dest
  | ag :: rest =>
      if agUsed.getD idx false then do
        let dest2 ← appendToListAttr line dest ag.name (agData.getD idx PyVal.none)
        appendUsedGroups line (idx + 1) agData agUsed dest2 rest
      else appendUsedGroups line (idx + 1) agData agUsed dest rest

/-- Process a full new-record row (lines 302-331, 367-479): instantiate the
record, pre-create the group lists, convert all mapped cells, then attach the
used pending group elements. -/
def processNewRecordRow (cfg : ReaderConfig) (maps : ReaderMaps) (line : Nat)
    (row : List String) : Except CsvError Obj := do
  let dest0 := cfg.array_groups.foldl
      (fun d ag => assocSet d (nameDotsToUnderscore ag.name) (PyVal.list [])) cfg.objInit
  let acc ← newRowCols cfg maps line row
      { dest := dest0, agData := initAgData cfg.array_groups,
        agUsed := cfg.array_groups.map (fun _ => false) }
      maps.column_index_to_column
  appendUsedGroups line 0 acc.agData acc.agUsed acc.dest cfg.array_groups

/-- Computes `if hs.contains g then hs else g :: hs`: the `set.add` of
`have_data_for_array` (only the element count and the sole member matter). -/
def insertIfAbsent (g : Nat) (hs : List Nat) : List Nat :=
  if hs.contains g then hs else g :: hs

/-- The continuation-row scan (lines 336-349): walk the mapped columns; a
non-empty array column records its group and its name, a non-empty normal
column other than the identifier errors. -/
def contScan (maps : ReaderMaps) (line : Nat) (row : List String) :
    List (Nat × Column) → Except CsvError (List Nat × List String)
  | [] => Except.ok ([], [])
  | (n, col) :: rest => do
      let value := cell row n
      if value = "" then contScan maps line row rest
      else
        match assocGet maps.array_column_name_to_array_index col.column_name with
        | Option.some g => do
            let (hs, cs) ← contScan maps line row rest
            Except.ok (insertIfAbsent g hs, col.column_name :: cs)
        | Option.none =>
            if Option.some n = maps.identifier_column_index then contScan maps line row rest
            else Except.error (.contNormalColumn line col.column_name)

/-- Continuation-row classification (lines 336-354): the scan plus the
exactly-one-group checks; returns the active group's index and the names of
its populated columns (`current_array_columns`). -/
def classifyContinuationRow (maps : ReaderMaps) (line : Nat) (row : List String) :
    Except CsvError (Nat × List String) := do
  let (hs, cs) ← contScan maps line row maps.column_index_to_column
  if hs.length > 1 then Except.error (.contMultipleGroups line)
  else
    match hs with
    | [] => Except.error (.contNoGroup line)
    | g :: _ => Except.ok (g, cs)

/-- The column loop for a continuation row (lines 368-470): only the active
group's populated columns are processed; single-column groups append the
converted value to the record's list, prefixed groups set the field on the
current element object. -/
def contRowCols (maps : ReaderMaps) (line : Nat) (row : List String)
    (agName : String) (agPfx : Option String) (contCols : List String)
    (st : Obj × Option Obj) :
    List (Nat × Column) → Except CsvError (Obj × Option Obj)
  | [] => Except.ok st
  | (n, col) :: rest =>
      if !(contCols.contains col.column_name) then
        contRowCols maps line row agName agPfx contCols st rest
      else do
        let value := cell row n
        let (cv, _) ← convertCell line col value
        match agPfx with
        | Option.none => do
            let dest2 ← appendToListAttr line st.1 agName cv
            contRowCols maps line row agName agPfx contCols (dest2, st.2) rest
        | Option.some p =>
            match st.2 with
            | Option.some o =>
                contRowCols maps line row agName agPfx contCols
                  (st.1, Option.some (assocSet o (col.column_name_for_array_object p.length) cv))
                  rest
            | Option.none => Except.error (.internal line "no current array object")

/-- Process a full continuation row (lines 332-365, 367-470): classify,
create the element object for the active group (appended to the group's list
once its fields are set; the Python appends the shared mutable object first
and then sets the fields, which is observably the same), and convert the
active group's populated columns. -/
def processContinuationRow (cfg : ReaderConfig) (maps : ReaderMaps) (line : Nat)
    (row : List String) (dest : Obj) : Except CsvError Obj := do
  let (g, contCols) ← classifyContinuationRow maps line row
  match cfg.array_groups.get? g with
  | Option.none => Except.error (.internal line "array group index out of range")
  | Option.some ag => do
      let curObj := _create_array_object ag
      let (dest2, curObj2) ← contRowCols maps line row ag.name ag.prefixName contCols
          (dest, curObj) maps.column_index_to_column
      match curObj2 with
      | Option.some o => appendToListAttr line dest2 ag.name (.obj o)
      | Option.none => Except.ok dest2

/-- The loop state of the row loop: current line number, finished records,
the record currently being extended, `previous_identifier` and
`done_identifiers`. -/
structure LoopState where
  line : Nat
  finished : List Obj
  current : Option Obj
  prevId : Option String
  doneIds : List String

/-- Process one data row (lines 262-479): field count, whitespace policy,
related-columns check, row-role classification, then new-record or
continuation processing. -/
def processRow (cfg : ReaderConfig) (maps : ReaderMaps) (st : LoopState)
    (row : List String) : Except CsvError LoopState := do
  let line := st.line + 1
  if row.length ≠ maps.header_field_count then
    Except.error (.fieldCount line maps.header_field_count row.length)
  else do
    let row2 := (row.enum).map (fun iv =>
      if assocHas maps.column_index_to_column iv.1 then
        applySpaceOne cfg.space_handling iv.2
      else iv.2)
    relatedCheck line maps.column_to_column_index row2 cfg.related_columns
    let role ← classifyRowRole line maps.identifier_column_index row2 st.prevId st.doneIds
    match role with
    | Option.some (prevId2, doneIds2) => do
        let dest ← processNewRecordRow cfg maps line row2
        Except.ok { line := line,
                    finished := st.finished ++ (st.current.map (fun c => [c])).getD [],
                    current := Option.some dest,
                    prevId := prevId2, doneIds := doneIds2 }
    | Option.none =>
        match st.current with
        | Option.some dest => do
            let dest2 ← processContinuationRow cfg maps line row2 dest
            Except.ok { st with line := line, current := Option.some dest2 }
        | Option.none => Except.error (.internal line "continuation without a record")

/-- The row loop. -/
def processRows (cfg : ReaderConfig) (maps : ReaderMaps) (st : LoopState) :
    List (List String) → Except CsvError LoopState
  | [] => Except.ok st
  | row :: rest => do
      let st2 ← processRow cfg maps st row
      processRows cfg maps st2 rest

/-- Embeds `csv_tools.read_header_csv_with_reader` on an already-split header line
and data rows: the full decode.  Returns the records in input order and the
`column_to_column_index` map. -/
def read_header_csv_with_reader (cfg : ReaderConfig) (headerline : List String)
    (rows : List (List String)) :
    Except CsvError (List Obj × List (Column × Nat)) := do
  let maps ← buildReaderMaps cfg headerline
  let final ← processRows cfg maps
      { line := 1, finished := [], current := Option.none,
        prevId := Option.none, doneIds := [] } rows
  Except.ok (final.finished ++ (final.current.map (fun c => [c])).getD [],
             maps.column_to_column_index)

/-- Did the decode succeed? -/
def exceptIsOk {ε α : Type} : Except ε α → Bool
  | Except.ok _ => true
  | Except.error _ => false

/-! ## file_format.py: the domain schema -/

/-- Embeds `file_format.country_codes`. -/
def country_codes : List String := [
  "UNDEFINED", "AC", "AD", "AE", "AF", "AG", "AI", "AL", "AM", "AN",
  "AO", "AQ", "AR", "AS", "AT", "AU", "AW", "AX", "AZ", "BA",
  "BB", "BD", "BE", "BF", "BG", "BH", "BI", "BJ", "BL", "BM",
  "BN", "BO", "BQ", "BR", "BS", "BT", "BU", "BV", "BW", "BY",
  "BZ", "CA", "CC", "CD", "CF", "CG", "CH", "CI", "CK", "CL",
  "CM", "CN", "CO", "CP", "CR", "CS", "CU", "CV", "CW", "CX",
  "CY", "CZ", "DE", "DG", "DJ", "DK", "DM", "DO", "DZ", "EA",
  "EC", "EE", "EG", "EH", "ER", "ES", "ET", "EU", "EZ", "FI",
  "FJ", "FK", "FM", "FO", "FR", "FX", "GA", "GB", "GD", "GE",
  "GF", "GG", "GH", "GI", "GL", "GM", "GN", "GP", "GQ", "GR",
  "GS", "GT", "GU", "GW", "GY", "HK", "HM", "HN", "HR", "HT",
  "HU", "IC", "ID", "IE", "IL", "IM", "IN", "IO", "IQ", "IR",
  "IS", "IT", "JE", "JM", "JO", "JP", "KE", "KG", "KH", "KI",
  "KM", "KN", "KP", "KR", "KW", "KY", "KZ", "LA", "LB", "LC",
  "LI", "LK", "LR", "LS", "LT", "LU", "LV", "LY", "MA", "MC",
  "MD", "ME", "MF", "MG", "MH", "MK", "ML", "MM", "MN", "MO",
  "MP", "MQ", "MR", "MS", "MT", "MU", "MV", "MW", "MX", "MY",
  "MZ", "NA", "NC", "NE", "NF", "NG", "NI", "NL", "NO", "NP",
  "NR", "NT", "NU", "NZ", "OM", "PA", "PE", "PF", "PG", "PH",
  "PK", "PL", "PM", "PN", "PR", "PS", "PT", "PW", "PY", "QA",
  "RE", "RO", "RS", "RU", "RW", "SA", "SB", "SC", "SD", "SE",
  "SF", "SG", "SH", "SI", "SJ", "SK", "SL", "SM", "SN", "SO",
  "SR", "SS", "ST", "SU", "SV", "SX", "SY", "SZ", "TA", "TC",
  "TD", "TF", "TG", "TH", "TJ", "TK", "TL", "TM", "TN", "TO",
  "TP", "TR", "TT", "TV", "TW", "TZ", "UA", "UG", "UK", "UM",
  "US", "UY", "UZ", "VA", "VC", "VE", "VG", "VI", "VN", "VU",
  "WF", "WS", "XI", "XU", "XK", "YE", "YT", "YU", "ZA", "ZM",
  "ZR", "ZW" ]

/-- Lists the `file_format.StatesType` member names. -/
def StatesTypeNames : List String := ["INACTIVE", "ACTIVE"]

/-- Lists the `file_format.ClassificationsType` member names. -/
def ClassificationsTypeNames : List String := ["NACE", "NAF", "NAICS", "SIC"]

/-- Lists the `file_format.Roles` member names. -/
def RolesNames : List String := ["SUPPLIER", "CUSTOMER", "ONE_TIME_SUPPLIER", "ONE_TIME_CUSTOMER"]

/-- Lists the `file_format.AddressType` member names. -/
def AddressTypeNames : List String :=
  ["LegalAndSiteMainAddress", "LegalAddress", "SiteMainAddress", "AdditionalAddress"]

/-- Lists the `file_format.DeliveryServiceType` member names. -/
def DeliveryServiceTypeNames : List String := ["PO_BOX", "PRIVATE_BAG", "BOITE_POSTALE"]

/-- Embeds `file_format.get_csv_header`: the domain schema's column catalogue. -/
def get_csv_header : List Column := [
  ⟨"externalId", .str, .NotOK, false, Option.none⟩,
  ⟨"name1", .str, .NotOK, false, Option.none⟩,
  ⟨"name2", .str, .ToNone, true, Option.none⟩,
  ⟨"name3", .str, .ToNone, true, Option.none⟩,
  ⟨"name4", .str, .ToNone, true, Option.none⟩,
  ⟨"name5", .str, .ToNone, true, Option.none⟩,
  ⟨"name6", .str, .ToNone, true, Option.none⟩,
  ⟨"name7", .str, .ToNone, true, Option.none⟩,
  ⟨"name8", .str, .ToNone, true, Option.none⟩,
  ⟨"name9", .str, .ToNone, true, Option.none⟩,
  ⟨"identifiers.type", .str, .ToNone, true, Option.none⟩,
  ⟨"identifiers.value", .str, .ToNone, true, Option.none⟩,
  ⟨"identifiers.issuingBody", .str, .ToNone, true, Option.none⟩,
  ⟨"states.validFrom", .datetime, .ToNone, true, Option.none⟩,
  ⟨"states.validTo", .datetime, .ToNone, true, Option.none⟩,
  ⟨"states.type", .enumT StatesTypeNames, .ToNone, true, Option.none⟩,
  ⟨"roles", .enumT RolesNames, .ToNone, true, Option.none⟩,
  ⟨"legalEntity.legalEntityBpn", .str, .ToNone, true, Option.none⟩,
  ⟨"legalEntity.legalName", .str, .ToNone, true, Option.none⟩,
  ⟨"legalEntity.shortName", .str, .ToNone, true, Option.none⟩,
  ⟨"legalEntity.legalForm", .str, .ToNone, true, Option.none⟩,
  ⟨"legalEntity.classifications.type", .enumT ClassificationsTypeNames, .ToNone, true, Option.none⟩,
  ⟨"legalEntity.classifications.code", .str, .ToNone, true, Option.none⟩,
  ⟨"legalEntity.classifications.value", .str, .ToNone, true, Option.none⟩,
  ⟨"site.siteBpn", .str, .ToNone, true, Option.none⟩,
  ⟨"site.name", .str, .ToNone, true, Option.none⟩,
  ⟨"address.addressBpn", .str, .ToNone, true, Option.none⟩,
  ⟨"address.name", .str, .ToNone, true, Option.none⟩,
  ⟨"address.addressType", .enumT AddressTypeNames, .ToNone, true, Option.none⟩,
  ⟨"address.physical.geographicCoordinates.longitude", .float, .ToNone, true, Option.none⟩,
  ⟨"address.physical.geographicCoordinates.latitude", .float, .ToNone, true, Option.none⟩,
  ⟨"address.physical.geographicCoordinates.altitude", .float, .ToNone, true, Option.none⟩,
  ⟨"address.physical.country", .setT country_codes, .ToNone, true, Option.none⟩,
  ⟨"address.physical.administrativeAreaLevel1", .str, .ToNone, true, Option.none⟩,
  ⟨"address.physical.administrativeAreaLevel2", .str, .ToNone, true, Option.none⟩,
  ⟨"address.physical.administrativeAreaLevel3", .str, .ToNone, true, Option.none⟩,
  ⟨"address.physical.postalCode", .str, .ToNone, true, Option.none⟩,
  ⟨"address.physical.city", .str, .ToNone, true, Option.none⟩,
  ⟨"address.physical.district", .str, .ToNone, true, Option.none⟩,
  ⟨"address.physical.street.namePrefix", .str, .ToNone, true, Option.none⟩,
  ⟨"address.physical.street.additionalNamePrefix", .str, .ToNone, true, Option.none⟩,
  ⟨"address.physical.street.name", .str, .ToNone, true, Option.none⟩,
  ⟨"address.physical.street.nameSuffix", .str, .ToNone, true, Option.none⟩,
  ⟨"address.physical.street.additionalNameSuffix", .str, .ToNone, true, Option.none⟩,
  ⟨"address.physical.street.houseNumber", .str, .ToNone, true, Option.none⟩,
  ⟨"address.physical.street.houseNumberSupplement", .str, .ToNone, true, Option.none⟩,
  ⟨"address.physical.street.milestone", .str, .ToNone, true, Option.none⟩,
  ⟨"address.physical.street.direction", .str, .ToNone, true, Option.none⟩,
  ⟨"address.physical.companyPostalCode", .str, .ToNone, true, Option.none⟩,
  ⟨"address.physical.industrialZone", .str, .ToNone, true, Option.none⟩,
  ⟨"address.physical.building", .str, .ToNone, true, Option.none⟩,
  ⟨"address.physical.floor", .str, .ToNone, true, Option.none⟩,
  ⟨"address.physical.door", .str, .ToNone, true, Option.none⟩,
  ⟨"address.alternative.geographicCoordinates.longitude", .float, .ToNone, true, Option.none⟩,
  ⟨"address.alternative.geographicCoordinates.latitude", .float, .ToNone, true, Option.none⟩,
  ⟨"address.alternative.geographicCoordinates.altitude", .float, .ToNone, true, Option.none⟩,
  ⟨"address.alternative.country", .setT country_codes, .ToNone, true, Option.none⟩,
  ⟨"address.alternative.administrativeAreaLevel1", .str, .ToNone, true, Option.none⟩,
  ⟨"address.alternative.postalCode", .str, .ToNone, true, Option.none⟩,
  ⟨"address.alternative.city", .str, .ToNone, true, Option.none⟩,
  ⟨"address.alternative.deliveryServiceType", .enumT DeliveryServiceTypeNames, .ToNone, true, Option.none⟩,
  ⟨"address.alternative.deliveryServiceQualifier", .str, .ToNone, true, Option.none⟩,
  ⟨"address.alternative.deliveryServiceNumber", .str, .ToNone, true, Option.none⟩,
  ⟨"createdAt", .datetime, .ToNone, true, Option.none⟩,
  ⟨"updatedAt", .datetime, .ToNone, true, Option.none⟩,
  ⟨"isOwnCompanyData", .bool, .NotOK, false, Option.none⟩ ]

/-! ## convert_csv.py: CSV to record structure -/

/-- The attributes `convert_csv.CSVIdentifiers.__init__` sets (all `None`). -/
def CSVIdentifiersInit : Obj :=
  [("type", PyVal.none), ("value", PyVal.none), ("issuingBody", PyVal.none)]

/-- The attributes `convert_csv.CSVStates.__init__` sets (all `None`). -/
def CSVStatesInit : Obj :=
  [("validFrom", PyVal.none), ("validTo", PyVal.none), ("type", PyVal.none)]

/-- The attributes `convert_csv.CSVRecord.__init__` sets, in constructor
order. -/
def CSVRecordInit : Obj := [
  ("externalId", PyVal.none),
  ("name1", PyVal.none), ("name2", PyVal.none), ("name3", PyVal.none),
  ("name4", PyVal.none), ("name5", PyVal.none), ("name6", PyVal.none),
  ("name7", PyVal.none), ("name8", PyVal.none), ("name9", PyVal.none),
  ("identifiers", PyVal.list []),
  ("states", PyVal.list []),
  ("roles", PyVal.list []),
  ("isOwnCompanyData", PyVal.bool false),
  ("legalEntity_legalEntityBpn", PyVal.none),
  ("legalEntity_legalName", PyVal.none),
  ("legalEntity_shortName", PyVal.none),
  ("legalEntity_legalForm", PyVal.none),
  ("legalEntity_states", PyVal.list []),
  ("site_siteBpn", PyVal.none),
  ("site_name", PyVal.none),
  ("site_states", PyVal.list []),
  ("address_addressBpn", PyVal.none),
  ("address_name", PyVal.none),
  ("address_addressType", PyVal.none),
  ("address_physical_geographicCoordinates_longitude", PyVal.none),
  ("address_physical_geographicCoordinates_latitude", PyVal.none),
  ("address_physical_geographicCoordinates_altitude", PyVal.none),
  ("address_physical_country", PyVal.none),
  ("address_physical_administrativeAreaLevel1", PyVal.none),
  ("address_physical_administrativeAreaLevel2", PyVal.none),
  ("address_physical_administrativeAreaLevel3", PyVal.none),
  ("address_physical_postalCode", PyVal.none),
  ("address_physical_city", PyVal.none),
  ("address_physical_district", PyVal.none),
  ("address_physical_street_namePrefix", PyVal.none),
  ("address_physical_street_additionalNamePrefix", PyVal.none),
  ("address_physical_street_name", PyVal.none),
  ("address_physical_street_nameSuffix", PyVal.none),
  ("address_physical_street_additionalNameSuffix", PyVal.none),
  ("address_physical_street_houseNumber", PyVal.none),
  ("address_physical_street_houseNumberSupplement", PyVal.none),
  ("address_physical_street_milestone", PyVal.none),
  ("address_physical_street_direction", PyVal.none),
  ("address_physical_companyPostalCode", PyVal.none),
  ("address_physical_industrialZone", PyVal.none),
  ("address_physical_building", PyVal.none),
  ("address_physical_floor", PyVal.none),
  ("address_physical_door", PyVal.none),
  ("address_alternative_geographicCoordinates_longitude", PyVal.none),
  ("address_alternative_geographicCoordinates_latitude", PyVal.none),
  ("address_alternative_geographicCoordinates_altitude", PyVal.none),
  ("address_alternative_country", PyVal.none),
  ("address_alternative_administrativeAreaLevel1", PyVal.none),
  ("address_alternative_postalCode", PyVal.none),
  ("address_alternative_city", PyVal.none),
  ("address_alternative_deliveryServiceType", PyVal.none),
  ("address_alternative_deliveryServiceQualifier", PyVal.none),
  ("address_alternative_deliveryServiceNumber", PyVal.none),
  ("address_states", PyVal.list []) ]

/-- Models `^pattern` anchored matching where `.` in the pattern matches any
character: the effect of `re.search` for the two anchored patterns
`convert_csv.convert` uses (no other regex metacharacters occur in them). -/
def dotMatchesAtStart : List Char → List Char → Bool
  | [], _ => true
  | _ :: _, [] => false
  | p :: ps, c :: cs => (p == '.' || p == c) && dotMatchesAtStart ps cs

/-- Embeds `convert_csv._get_all_columns`: the names of all schema columns matched
by the anchored pattern.  (The Python raises when nothing matches; both
domain patterns match.) -/
def _get_all_columns (header : List Column) (pat : String) : List String :=
  (header.filter (fun c => dotMatchesAtStart pat.toList c.column_name.toList)).map
    (fun c => c.column_name)

/-- The `related_columns` argument built by `convert_csv.convert`: the
longitude/latitude pairs of the physical and alternative address, as sets of
column-name strings. -/
def convertCsvRelatedColumns : List (List String) := [
  _get_all_columns get_csv_header "address.physical.geographicCoordinates.l",
  _get_all_columns get_csv_header "address.alternative.geographicCoordinates.l" ]

/-- The `array_groups` argument built by `convert_csv.convert`. -/
def convertCsvArrayGroups : List ArrayGroup := [
  ⟨"identifiers", Option.some "identifiers.", CSVIdentifiersInit⟩,
  ⟨"roles", Option.none, []⟩,
  ⟨"states", Option.some "states.", CSVStatesInit⟩,
  ⟨"legalEntity_states", Option.some "legalEntity.states.", CSVStatesInit⟩,
  ⟨"site_states", Option.some "site.states.", CSVStatesInit⟩,
  ⟨"address_states", Option.some "address.states.", CSVStatesInit⟩ ]

/-- The reader configuration `convert_csv.convert` passes to
`read_header_csv_with_reader`. -/
def convertCsvConfig : ReaderConfig :=
  { header := get_csv_header,
    objInit := CSVRecordInit,
    related_columns := convertCsvRelatedColumns,
    identifier_column := Option.some "externalId",
    array_groups := convertCsvArrayGroups }

/-- Embeds `convert_csv.convert`: decode a CSV (header line plus data rows) into the
record structure, with the domain schema. -/
def convert_csv (headerline : List String) (rows : List (List String)) :
    Except CsvError (List Obj) :=
  (read_header_csv_with_reader convertCsvConfig headerline rows).map (fun r => r.1)

/-! ## convert_json.py: JSON records to CSV rows -/

/-- A JSON value from the partner-data API. -/
inductive JVal where
  | jnull : JVal
  | jstr : String → JVal
  | jint : Int → JVal
  | jfloat : PyFloat → JVal
  | jbool : Bool → JVal
  | jobj : List (String × JVal) → JVal
  | jarr : List JVal → JVal
deriving Repr

/-- The exceptions the JSON-to-CSV conversion can raise: `KeyError` from
subscripting a missing key, `TypeError` from using a value of the wrong
shape. -/
inductive JsonError where
  | keyError : String → JsonError
  | typeError : String → JsonError
deriving DecidableEq, Repr

/-- One output CSV line: column name to cell text, in insertion order. -/
abbrev Row := List (String × String)

/-- Drop trailing decimal zeros: `(n, e)` represents `n * 10 ^ -e`. -/
def trimZeros (n : Nat) : Nat → Nat × Nat
  | 0 => (n, 0)
  | e + 1 => if n % 10 == 0 then trimZeros (n / 10) e else (n, e + 1)

/-- Left-pad with zeros to the given length. -/
def padZeros (s : String) (len : Nat) : String :=
  String.mk (List.replicate (len - s.length) '0') ++ s

/-- Python `str()` of a float holding the exact decimal `d`: sign, integer
part, then the fraction digits with trailing zeros removed (`".0"` when the
value is integral).  Python's `repr` of a float is its shortest round-trip
decimal, which agrees with the exact expansion on the short decimals this
program handles. -/
def floatToString (d : Dec10) : String :=
  let m := d.num.natAbs
  let p := trimZeros m d.exp
  let ip := p.1 / 10 ^ p.2
  let fr := p.1 % 10 ^ p.2
  let fracStr := if p.2 == 0 then "0" else padZeros (Nat.repr fr) p.2
  (if d.num < 0 then "-" else "") ++ Nat.repr ip ++ "." ++ fracStr

/-- Python `str()` of any float: the decimal rendering for finite values,
`inf`/`-inf`/`nan` for the special ones. -/
def pyFloatToString : PyFloat → String
  | .finite d => floatToString d
  | .inf neg => if neg then "-inf" else "inf"
  | .nan => "nan"

/-- Embeds `convert_json.convert_value`: stringify a scalar cell value. -/
def convert_value : JVal → String
  | .jnull => ""
  | .jobj _ => "internal error 2"
  | .jarr _ => "internal error 2"
  | .jfloat f => charReplace (pyFloatToString f) '.' ','
  | .jbool b => if b then "true" else "false"
  | .jstr s => s
  | .jint i => toString i

/-- Python `str()`, as applied when the raw `externalId` value ends up in a
cell.  (For the string identifiers this program handles it is the
identity.) -/
def pyStr : JVal → String
  | .jstr s => s
  | .jint i => toString i
  | .jfloat f => pyFloatToString f
  | .jbool b => if b then "True" else "False"
  | .jnull => "None"
  | .jobj _ => "internal error str(dict)"
  | .jarr _ => "internal error str(list)"

/-- Embeds `convert_json.map_abbreviations`. -/
def map_abbreviations : List (String × String) :=
  [("physicalPostalAddress", "physical"), ("alternativePostalAddress", "alternative")]

/-- Embeds `map_abbreviations.get(key, key)`. -/
def mapAbbrev (k : String) : String := (assocGet map_abbreviations k).getD k

/-- The schema's column names (`csv_header` in `convert_json.convert`). -/
def csvHeaderNames : List String := get_csv_header.map (fun c => c.column_name)

/-- Python `identifier["k"]`: `KeyError` when missing. -/
def jGet (fields : List (String × JVal)) (k : String) : Except JsonError JVal :=
  match assocGet fields k with
  | Option.some v => Except.ok v
  | Option.none => Except.error (.keyError k)

/-- Embeds `convert_json.convert_identifier`: the four cell assignments it performs
(`KeyError` when the identifier lacks `type`, `value` or `issuingBody`). -/
def convert_identifier_fields (identifier : JVal) (external_id : String) :
    Except JsonError (List (String × String)) :=
  match identifier with
  | .jobj fields => do
      let t ← jGet fields "type"
      let v ← jGet fields "value"
      let b ← jGet fields "issuingBody"
      Except.ok [("identifiers.type", convert_value t),
                 ("identifiers.value", convert_value v),
                 ("identifiers.issuingBody", convert_value b),
                 ("externalId", external_id)]
  | _ => Except.error (.typeError "identifier is not an object")

/-- Embeds `convert_json.convert_states`: the four cell assignments it performs. -/
def convert_states_fields (state : JVal) (external_id full_key : String) :
    Except JsonError (List (String × String)) :=
  match state with
  | .jobj fields => do
      let f ← jGet fields "validFrom"
      let t ← jGet fields "validTo"
      let ty ← jGet fields "type"
      Except.ok [(full_key ++ ".validFrom", convert_value f),
                 (full_key ++ ".validTo", convert_value t),
                 (full_key ++ ".type", convert_value ty),
                 ("externalId", external_id)]
  | _ => Except.error (.typeError "state is not an object")

/-- Embeds `convert_json.convert_roles`: the two cell assignments it performs. -/
def convert_roles_fields (role : JVal) (external_id : String) : List (String × String) :=
  [("roles", convert_value role), ("externalId", external_id)]

/-- Apply a sequence of dict assignments to a row (used both to merge a
group's first element into the primary row and to build a fresh continuation
row from an empty dict). -/
def mergeRow (dest : Row) (kvs : List (String × String)) : Row :=
  kvs.foldl (fun d kv => assocSet d kv.1 kv.2) dest

/-- The `for identifier in value[1:]` loop: one fresh row per further
element. -/
def convertIdentList (external_id : String) : List JVal → Except JsonError (List Row)
  | [] => Except.ok []
  | idf :: rest => do
      let kvs ← convert_identifier_fields idf external_id
      let more ← convertIdentList external_id rest
      Except.ok (mergeRow [] kvs :: more)

/-- The `for state in value[1:]` loop. -/
def convertStatesList (external_id full_key : String) :
    List JVal → Except JsonError (List Row)
  | [] => Except.ok []
  | st :: rest => do
      let kvs ← convert_states_fields st external_id full_key
      let more ← convertStatesList external_id full_key rest
      Except.ok (mergeRow [] kvs :: more)

/-- The `for role in value[1:]` loop. -/
def convertRolesList (external_id : String) (l : List JVal) : List Row :=
  l.map (fun r => mergeRow [] (convert_roles_fields r external_id))

/-- The `nameParts` loop: part `i` (1-based) is written to column
`name{i}` of the primary row. -/
def convertNameParts (num : Nat) (dest : Row) : List JVal → Row
  | [] => dest
  | part :: rest =>
      convertNameParts (num + 1)
        (assocSet dest ("name" ++ toString (num + 1)) (convert_value part)) rest

/-- Embeds `unknown_keys.add`. -/
def insertIfAbsentStr (k : String) (l : List String) : List String :=
  if l.contains k then l else l ++ [k]

/-- The state `convert_record` threads: the primary row being built, the
continuation lines collected so far and the unknown-key set. -/
structure ConvState where
  dest : Row
  additional_lines : List Row
  unknown_keys : List String

/-- One pass of the `convert_record` loop over a record's items.  `recObj`
handles the recursion into sub-objects (instantiated with the next fuel
level by `convertFieldsF`). -/
def convertFieldsGo (cols : List String) (eid : String)
    (recObj : String → ConvState → List (String × JVal) → Except JsonError ConvState)
    (path : String) (st : ConvState) :
    List (String × JVal) → Except JsonError ConvState
  | [] => Except.ok st
  | (key, value) :: rest =>
      let full_key := path ++ mapAbbrev key
      if full_key == "nameParts" then
        match value with
        | .jarr parts =>
            convertFieldsGo cols eid recObj path
              { st with dest := convertNameParts 0 st.dest parts } rest
        | _ => Except.error (.typeError "nameParts is not iterable")
      else if full_key == "identifiers" then
        match value with
        | .jarr items =>
            (match items with
             | [] => convertFieldsGo cols eid recObj path st rest
             | x :: xs => do
                 let kvs ← convert_identifier_fields x eid
                 let lines ← convertIdentList eid xs
                 convertFieldsGo cols eid recObj path
                   { st with dest := mergeRow st.dest kvs,
                             additional_lines := st.additional_lines ++ lines } rest)
        | _ => Except.error (.typeError "identifiers has no len()")
      else if full_key == "states" || strEndsWith full_key ".states" then
        match value with
        | .jarr items =>
            (match items with
             | [] => convertFieldsGo cols eid recObj path st rest
             | x :: xs => do
                 let kvs ← convert_states_fields x eid full_key
                 let lines ← convertStatesList eid full_key xs
                 convertFieldsGo cols eid recObj path
                   { st with dest := mergeRow st.dest kvs,
                             additional_lines := st.additional_lines ++ lines } rest)
        | _ => Except.error (.typeError "states has no len()")
      else if full_key == "roles" then
        match value with
        | .jarr items =>
            (match items with
             | [] => convertFieldsGo cols eid recObj path st rest
             | x :: xs =>
                 convertFieldsGo cols eid recObj path
                   { st with dest := mergeRow st.dest (convert_roles_fields x eid),
                             additional_lines :=
                               st.additional_lines ++ convertRolesList eid xs } rest)
        | _ => Except.error (.typeError "roles has no len()")
      else
        match value with
        | .jobj sub => do
            let st2 ← recObj (full_key ++ ".") st sub
            convertFieldsGo cols eid recObj path st2 rest
        | .jarr _ =>
            convertFieldsGo cols eid recObj path
              { st with dest := assocSet st.dest full_key "internal error 1" } rest
        | v =>
            if cols.contains full_key then
              convertFieldsGo cols eid recObj path
                { st with dest := assocSet st.dest full_key (convert_value v) } rest
            else
              match v with
              | .jnull => convertFieldsGo cols eid recObj path st rest
              | _ =>
                  convertFieldsGo cols eid recObj path
                    { st with unknown_keys := insertIfAbsentStr full_key st.unknown_keys } rest

/-- Embeds `convert_json.convert_record`: the loop over a record's items, with a
structural fuel bound on the nesting depth of sub-objects (the JSON this
program handles nests a few levels deep; any fuel at least the nesting depth
gives the source behaviour). -/
def convertFieldsF (cols : List String) (eid : String) :
    Nat → String → ConvState → List (String × JVal) → Except JsonError ConvState
  | 0, _, _, _ => Except.error (.typeError "recursion limit")
  | fuel + 1, path, st, l => convertFieldsGo cols eid (convertFieldsF cols eid fuel) path st l

/-- Nesting-depth fuel for `convert_json.convert` (the domain data nests at
most four levels). -/
def jsonConvertFuel : Nat := 100

/-- The `for input_record in data` loop of `convert_json.convert`: per
record, look up `externalId` (`KeyError` when absent), convert the record,
then emit its primary row followed by its continuation lines. -/
def convertData (cols : List String) (unknown : List String) :
    List JVal → Except JsonError (List Row × List String)
  | [] => Except.ok ([], unknown)
  | record :: rest =>
      match record with
      | .jobj fields => do
          let eidv ← jGet fields "externalId"
          let st ← convertFieldsF cols (pyStr eidv) jsonConvertFuel ""
              ⟨[], [], unknown⟩ fields
          let p ← convertData cols st.unknown_keys rest
          Except.ok ((st.dest :: st.additional_lines) ++ p.1, p.2)
      | _ => Except.error (.typeError "record is not an object")

/-- Ordered insertion for sorting the unknown keys. -/
def insertSorted (x : String) : List String → List String
  | [] => [x]
  | y :: rest => if charListLt y.toList x.toList then y :: insertSorted x rest else x :: y :: rest

/-- Python `sorted` on strings. -/
def sortStrings : List String → List String
  | [] => []
  | x :: rest => insertSorted x (sortStrings rest)

/-- Embeds `convert_json.convert`: JSON records to CSV rows.  Returns the rows, the
header names, and additionally the sorted unknown-key set that the source
logs as warnings (returned here so the logging behaviour is part of the
model). -/
def convert_json (data : List JVal) :
    Except JsonError (List Row × List String × List String) :=
  match convertData csvHeaderNames [] data with
  | Except.error e => Except.error e
  | Except.ok (records, unknown) =>
      Except.ok (records, csvHeaderNames, sortStrings unknown)

/-! ## Specification-side definitions and concrete scenarios -/

/-- Specification-side rendering of the related-columns co-presence rule
(spec §3 invariant 6, §4.2 step 4), for comparison with the code's
`relatedCheck`: among the set's member columns present in the file header
(looked up by column **name**), either all cells of the row are empty or none
is; `true` means the rule is violated. -/
def relatedSetViolatedSpec (cnti : List (String × Nat)) (related : List String)
    (row : List String) : Bool :=
  let states := (related.filterMap (fun c => assocGet cnti c)).map
      (fun idx => decide (cell row idx = ""))
  states.any id && !(states.all id)

/-- A reader configuration like the one `convert_csv.convert` builds, except
that only the three array groups whose prefixes actually occur in the domain
schema are kept (`convert_csv.convert`'s own configuration also names
`legalEntity.states.`, `site.states.` and `address.states.` groups, which
match no schema column, so its decode fails before reading any row). -/
def coordCfg : ReaderConfig :=
  { header := get_csv_header,
    objInit := CSVRecordInit,
    related_columns := convertCsvRelatedColumns,
    identifier_column := Option.some "externalId",
    array_groups := [⟨"identifiers", Option.some "identifiers.", CSVIdentifiersInit⟩,
                     ⟨"roles", Option.none, []⟩,
                     ⟨"states", Option.some "states.", CSVStatesInit⟩] }

/-- A file header containing both geographic-coordinate columns of the
physical address. -/
def c1Header : List String :=
  ["externalId", "name1", "isOwnCompanyData",
   "address.physical.geographicCoordinates.longitude",
   "address.physical.geographicCoordinates.latitude"]

/-- A data row with the longitude set and the latitude empty. -/
def c1Row : List String := ["A1", "Acme", "true", "9,18", ""]

/-- The file header of the spec's §8 end-to-end scenario. -/
def c4Header : List String :=
  ["externalId", "name1", "identifiers.type", "identifiers.value", "isOwnCompanyData"]

/-- The data rows of the spec's §8 end-to-end scenario. -/
def c4Rows : List (List String) :=
  [["A1", "Acme", "LEI", "1234", "true"], ["A1", "", "TAX", "999", ""]]

/-- The record the §8 scenario is expected to produce: the `CSVRecord`
defaults with `externalId`, `name1`, the two identifiers and the ownership
flag set. -/
def c4Expected : Obj :=
  assocSet (assocSet (assocSet (assocSet CSVRecordInit
    "externalId" (.str "A1"))
    "name1" (.str "Acme"))
    "identifiers" (.list [
      .obj [("type", .str "LEI"), ("value", .str "1234"), ("issuingBody", PyVal.none)],
      .obj [("type", .str "TAX"), ("value", .str "999"), ("issuingBody", PyVal.none)]]))
    "isOwnCompanyData" (.bool true)

/-- A minimal configuration with an identifier column and no array groups. -/
def c6Cfg : ReaderConfig :=
  { header := [⟨"externalId", .str, .NotOK, false, Option.none⟩],
    identifier_column := Option.some "externalId" }

/-- A small configuration with two array groups (a prefixed one and a
single-column one) for the continuation-row scenarios. -/
def c5Cfg : ReaderConfig :=
  { header := [⟨"externalId", .str, .NotOK, false, Option.none⟩,
               ⟨"name1", .str, .ToNone, true, Option.none⟩,
               ⟨"identifiers.type", .str, .ToNone, true, Option.none⟩,
               ⟨"identifiers.value", .str, .ToNone, true, Option.none⟩,
               ⟨"roles", .str, .ToNone, true, Option.none⟩],
    identifier_column := Option.some "externalId",
    array_groups := [⟨"identifiers", Option.some "identifiers.", CSVIdentifiersInit⟩,
                     ⟨"roles", Option.none, []⟩] }

/-- The file header for `c5Cfg`. -/
def c5Header : List String :=
  ["externalId", "name1", "identifiers.type", "identifiers.value", "roles"]

/-- A configuration whose group columns declare `Empty.NotOK`, to observe
that continuation rows bypass the empty-cell policy. -/
def c9Cfg : ReaderConfig :=
  { header := [⟨"externalId", .str, .NotOK, false, Option.none⟩,
               ⟨"identifiers.type", .str, .NotOK, false, Option.none⟩,
               ⟨"identifiers.value", .str, .NotOK, false, Option.none⟩],
    identifier_column := Option.some "externalId",
    array_groups := [⟨"identifiers", Option.some "identifiers.", CSVIdentifiersInit⟩] }

/-- The record `c9Cfg` produces from rows `A1/LEI/1` and `A1/TAX/<empty>`:
the second group element keeps the constructor default `None` for the
skipped empty `identifiers.value` column. -/
def c9Expected : Obj :=
  [("identifiers", .list [
      .obj [("type", .str "LEI"), ("value", .str "1"), ("issuingBody", PyVal.none)],
      .obj [("type", .str "TAX"), ("value", PyVal.none), ("issuingBody", PyVal.none)]]),
   ("externalId", .str "A1")]

/-- Is the JSON value a scalar (not an object or array)? -/
def JVal.isScalar : JVal → Bool
  | .jobj _ => false
  | .jarr _ => false
  | _ => true

/-- Is the JSON value `null`? -/
def JVal.isNull : JVal → Bool
  | .jnull => true
  | _ => false

/-- A well-formed identifiers element built from a `(type, value,
issuingBody)` triple of strings. -/
def mkIdentJ (x : String × String × String) : JVal :=
  .jobj [("type", .jstr x.1), ("value", .jstr x.2.1), ("issuingBody", .jstr x.2.2)]

/-- The continuation row the encoder emits for a further identifiers
element: exactly the group's three columns plus the identifier. -/
def identRowOf (e : String) (x : String × String × String) : Row :=
  [("identifiers.type", x.1), ("identifiers.value", x.2.1),
   ("identifiers.issuingBody", x.2.2), ("externalId", e)]

/-- A well-formed states element built from a `(validFrom, validTo, type)`
triple of strings. -/
def mkStateJ (x : String × String × String) : JVal :=
  .jobj [("validFrom", .jstr x.1), ("validTo", .jstr x.2.1), ("type", .jstr x.2.2)]

/-- The continuation row the encoder emits for a further states element of
the group keyed `fk`: exactly the group's three columns plus the
identifier. -/
def stateRowOf (e fk : String) (x : String × String × String) : Row :=
  [(fk ++ ".validFrom", x.1), (fk ++ ".validTo", x.2.1),
   (fk ++ ".type", x.2.2), ("externalId", e)]

/-- The continuation row the encoder emits for a further roles element. -/
def roleRowOf (e r : String) : Row := [("roles", r), ("externalId", e)]

/-- The domain schema's longitude column (a float-typed column). -/
def c8FloatCol : Column :=
  ⟨"address.physical.geographicCoordinates.longitude", .float, .ToNone, true, Option.none⟩

/-- A small concrete `ReaderMaps` value (an identifier column at index 0, a
normal column at index 1, no array columns) to instantiate the
continuation-row theorems. -/
def c5WitnessMaps : ReaderMaps :=
  { column_to_column_index := [],
    column_index_to_column := [(0, ⟨"externalId", .str, .NotOK, false, Option.none⟩),
                               (1, ⟨"name1", .str, .ToNone, true, Option.none⟩)],
    column_name_to_index := [],
    array_column_name_to_array_index := [],
    header_field_count := 2,
    identifier_column_index := Option.some 0 }

/-! ## Helper lemmas -/

/-- Binding an error short-circuits. -/
theorem except_bind_error {e : Type} {a b : Type} (err : e) (f : a → Except e b) :
    (Except.error err >>= f) = Except.error err := rfl

/-- Binding a success applies the continuation. -/
theorem except_bind_ok {e : Type} {a b : Type} (x : a) (f : a → Except e b) :
    (Except.ok x >>= f) = f x := rfl

/-- Appending the empty string on the left is the identity. -/
theorem string_nil_append (s : String) : "" ++ s = s := by
  cases s
  rfl

/-- A `str` key never matches in a `Column`-keyed dict. -/
theorem find_pyColumnEqStr_none (cti : List (Column × Nat)) (s : String) :
    cti.find? (fun kv => pyColumnEqStr kv.1 s) = Option.none := by
  induction cti with
  | nil => rfl
  | cons a t ih => simp [List.find?, pyColumnEqStr, ih]

/-- Looking a related-column name up among the `Column`-keyed entries always
misses. -/
theorem columnDictFindStr_none (cti : List (Column × Nat)) (s : String) :
    columnDictFindStr cti s = Option.none := by
  simp [columnDictFindStr, find_pyColumnEqStr_none]

/-- A constant-false map has no true element. -/
theorem anyMapFalse (l : List String) : (l.map (fun _ => false)).any id = false := by
  induction l with
  | nil => rfl
  | cons a t ih => simp [List.any, ih]

/-- The related-columns check of `read_header_csv_with_reader` can never
raise: every membership test of a column-name string against the
`Column`-keyed index dict fails, so every recorded empty-state is `False`
and the mixed-state condition is unsatisfiable. -/
theorem relatedCheck_never_fires (line : Nat) (cti : List (Column × Nat))
    (row : List String) (rels : List (List String)) :
    relatedCheck line cti row rels = Except.ok () := by
  induction rels with
  | nil => rfl
  | cons related rest ih =>
      have h : (related.map (fun c =>
          match columnDictFindStr cti c with
          | Option.some idx => decide (cell row idx = "")
          | Option.none => false)).any id = false := by
        have hfn : (fun c =>
            match columnDictFindStr cti c with
            | Option.some idx => decide (cell row idx = "")
            | Option.none => false) = (fun _ : String => false) := by
          funext c
          simp [columnDictFindStr_none]
        rw [hfn]
        exact anyMapFalse related
      simp [relatedCheck, h, ih]

/-- Inserting an element makes it a member. -/
theorem contains_insertIfAbsent_self (g : Nat) (hs : List Nat) :
    (insertIfAbsent g hs).contains g = true := by
  simp only [insertIfAbsent]
  by_cases h : hs.contains g = true
  · rw [if_pos h]
    exact h
  · rw [if_neg h]
    simp

/-- Insertion preserves membership. -/
theorem contains_insertIfAbsent_mono (g g2 : Nat) (hs : List Nat)
    (h : hs.contains g = true) : (insertIfAbsent g2 hs).contains g = true := by
  simp only [insertIfAbsent]
  by_cases h2 : hs.contains g2 = true
  · rw [if_pos h2]
    exact h
  · rw [if_neg h2]
    simp at h ⊢
    exact Or.inr h

/-- Every error the continuation-row scan raises is a ContinuationError. -/
theorem contScan_error_kind (maps : ReaderMaps) (line : Nat) (row : List String) :
    ∀ (l : List (Nat × Column)) (e : CsvError),
    contScan maps line row l = Except.error e → e.isContinuationError = true := by
  intro l
  induction l with
  | nil => intro e h; exact absurd h (by simp [contScan])
  | cons a rest ih =>
      intro e h
      rcases a with ⟨n, col⟩
      simp only [contScan] at h
      by_cases hv : cell row n = ""
      · rw [if_pos hv] at h
        exact ih e h
      · rw [if_neg hv] at h
        split at h
        next g hg =>
          cases hs : contScan maps line row rest with
          | error e2 =>
              rw [hs, except_bind_error] at h
              injection h with h3
              subst h3
              exact ih _ hs
          | ok p =>
              rw [hs, except_bind_ok] at h
              rcases p with ⟨hs2, cs2⟩
              simp at h
        next hg =>
          by_cases hid : Option.some n = maps.identifier_column_index
          · rw [if_pos hid] at h
            exact ih e h
          · rw [if_neg hid] at h
            injection h with h3
            subst h3
            rfl

/-- When the continuation-row scan succeeds, every non-empty mapped cell is
an array column or the identifier column. -/
theorem contScan_ok_cols (maps : ReaderMaps) (line : Nat) (row : List String) :
    ∀ (l : List (Nat × Column)) (hs : List Nat) (cs : List String),
    contScan maps line row l = Except.ok (hs, cs) →
    ∀ (n : Nat) (col : Column), (n, col) ∈ l → cell row n ≠ "" →
      (assocGet maps.array_column_name_to_array_index col.column_name ≠ Option.none
       ∨ Option.some n = maps.identifier_column_index) := by
  intro l
  induction l with
  | nil =>
      intro hs cs h n col hm
      exact absurd hm (List.not_mem_nil _)
  | cons a rest ih =>
      intro hs cs h n col hm hv
      rcases a with ⟨n2, col2⟩
      simp only [contScan] at h
      rcases List.mem_cons.mp hm with heq | htail
      · cases heq
        rw [if_neg hv] at h
        split at h
        next g hg => exact Or.inl (by simp [hg])
        next hg =>
          by_cases hid : Option.some n = maps.identifier_column_index
          · exact Or.inr hid
          · rw [if_neg hid] at h
            simp at h
      · by_cases hv2 : cell row n2 = ""
        · rw [if_pos hv2] at h
          exact ih hs cs h n col htail hv
        · rw [if_neg hv2] at h
          split at h
          next g hg =>
            cases hsr : contScan maps line row rest with
            | error e2 =>
                rw [hsr, except_bind_error] at h
                simp at h
            | ok p =>
                rw [hsr, except_bind_ok] at h
                exact ih p.1 p.2 (by rw [hsr]) n col htail hv
          next hg =>
            by_cases hid2 : Option.some n2 = maps.identifier_column_index
            · rw [if_pos hid2] at h
              exact ih hs cs h n col htail hv
            · rw [if_neg hid2] at h
              simp at h

/-- When the continuation-row scan succeeds, the group of every non-empty
array cell is recorded. -/
theorem contScan_ok_groups (maps : ReaderMaps) (line : Nat) (row : List String) :
    ∀ (l : List (Nat × Column)) (hs : List Nat) (cs : List String),
    contScan maps line row l = Except.ok (hs, cs) →
    ∀ (n : Nat) (col : Column) (g : Nat), (n, col) ∈ l → cell row n ≠ "" →
      assocGet maps.array_column_name_to_array_index col.column_name = Option.some g →
      hs.contains g = true := by
  intro l
  induction l with
  | nil =>
      intro hs cs h n col g hm
      exact absurd hm (List.not_mem_nil _)
  | cons a rest ih =>
      intro hs cs h n col g hm hv hg
      rcases a with ⟨n2, col2⟩
      simp only [contScan] at h
      rcases List.mem_cons.mp hm with heq | htail
      · cases heq
        rw [if_neg hv] at h
        split at h
        next g2 hg2 =>
          have hgg : g2 = g := by
            rw [hg] at hg2
            exact (Option.some.inj hg2).symm
          subst hgg
          cases hsr : contScan maps line row rest with
          | error e2 =>
              rw [hsr, except_bind_error] at h
              simp at h
          | ok p =>
              rw [hsr, except_bind_ok] at h
              rcases p with ⟨hs2, cs2⟩
              injection h with h2
              injection h2 with h3 h4
              rw [← h3]
              exact contains_insertIfAbsent_self g2 hs2
        next hg2 =>
          rw [hg] at hg2
          simp at hg2
      · by_cases hv2 : cell row n2 = ""
        · rw [if_pos hv2] at h
          exact ih hs cs h n col g htail hv hg
        · rw [if_neg hv2] at h
          split at h
          next g2 hg2 =>
            cases hsr : contScan maps line row rest with
            | error e2 =>
                rw [hsr, except_bind_error] at h
                simp at h
            | ok p =>
                rw [hsr, except_bind_ok] at h
                rcases p with ⟨hs2, cs2⟩
                injection h with h2
                injection h2 with h3 h4
                rw [← h3]
                exact contains_insertIfAbsent_mono g g2 hs2
                  (ih hs2 cs2 hsr n col g htail hv hg)
          next hg2 =>
            by_cases hid2 : Option.some n2 = maps.identifier_column_index
            · rw [if_pos hid2] at h
              exact ih hs cs h n col g htail hv hg
            · rw [if_neg hid2] at h
              simp at h

/-- When no non-empty mapped cell is an array column, the scan records no
group. -/
theorem contScan_ok_noGroups (maps : ReaderMaps) (line : Nat) (row : List String) :
    ∀ (l : List (Nat × Column)) (hs : List Nat) (cs : List String),
    contScan maps line row l = Except.ok (hs, cs) →
    (∀ (n : Nat) (col : Column), (n, col) ∈ l → cell row n ≠ "" →
      assocGet maps.array_column_name_to_array_index col.column_name = Option.none) →
    hs = [] := by
  intro l
  induction l with
  | nil =>
      intro hs cs h hall
      simp [contScan] at h
      exact h.1
  | cons a rest ih =>
      intro hs cs h hall
      rcases a with ⟨n2, col2⟩
      simp only [contScan] at h
      by_cases hv2 : cell row n2 = ""
      · rw [if_pos hv2] at h
        exact ih hs cs h (fun n col hm hv => hall n col (List.mem_cons_of_mem _ hm) hv)
      · rw [if_neg hv2] at h
        split at h
        next g hg =>
            exact absurd (hall n2 col2 (List.mem_cons_self _ _) hv2) (by simp [hg])
        next hg =>
          by_cases hid2 : Option.some n2 = maps.identifier_column_index
          · rw [if_pos hid2] at h
            exact ih hs cs h (fun n col hm hv => hall n col (List.mem_cons_of_mem _ hm) hv)
          · rw [if_neg hid2] at h
            simp at h

/-- A list containing two distinct elements has length at least two. -/
theorem length_gt_one_of_two_distinct (hs : List Nat) (g1 g2 : Nat)
    (h1 : hs.contains g1 = true) (h2 : hs.contains g2 = true) (hne : g1 ≠ g2) :
    hs.length > 1 := by
  cases hs with
  | nil => simp at h1
  | cons a t =>
      cases t with
      | nil =>
          simp at h1 h2
          exact absurd (h1.trans h2.symm) hne
      | cons b t2 => simp_arith [List.length]

/-- The continuation-row classification fails with a ContinuationError
whenever the row has no populated array-group column, or populated columns
of two different groups, or a populated non-group column other than the
identifier. -/
theorem classifyContinuation_fails (maps : ReaderMaps) (line : Nat) (row : List String) :
    ((∀ (n : Nat) (col : Column), (n, col) ∈ maps.column_index_to_column →
        cell row n ≠ "" →
        assocGet maps.array_column_name_to_array_index col.column_name = Option.none)
     ∨ (∃ n1 c1 g1 n2 c2 g2, (n1, c1) ∈ maps.column_index_to_column ∧
          (n2, c2) ∈ maps.column_index_to_column ∧
          cell row n1 ≠ "" ∧ cell row n2 ≠ "" ∧
          assocGet maps.array_column_name_to_array_index c1.column_name = Option.some g1 ∧
          assocGet maps.array_column_name_to_array_index c2.column_name = Option.some g2 ∧
          g1 ≠ g2)
     ∨ (∃ n col, (n, col) ∈ maps.column_index_to_column ∧ cell row n ≠ "" ∧
          assocGet maps.array_column_name_to_array_index col.column_name = Option.none ∧
          Option.some n ≠ maps.identifier_column_index)) →
    ∃ e, classifyContinuationRow maps line row = Except.error e ∧
         e.isContinuationError = true := by
  intro hcase
  cases hscan : contScan maps line row maps.column_index_to_column with
  | error e =>
      refine ⟨e, ?_, contScan_error_kind maps line row _ e hscan⟩
      simp [classifyContinuationRow, hscan, except_bind_error]
  | ok p =>
      rcases p with ⟨hs, cs⟩
      rcases hcase with h0 | ⟨n1, c1, g1, n2, c2, g2, hm1, hm2, hv1, hv2, hg1, hg2, hne⟩ |
        ⟨n, col, hm, hv, hg, hid⟩
      · have hnil := contScan_ok_noGroups maps line row _ hs cs hscan h0
        subst hnil
        refine ⟨.contNoGroup line, ?_, rfl⟩
        simp [classifyContinuationRow, hscan, except_bind_ok]
      · have hc1 := contScan_ok_groups maps line row _ hs cs hscan n1 c1 g1 hm1 hv1 hg1
        have hc2 := contScan_ok_groups maps line row _ hs cs hscan n2 c2 g2 hm2 hv2 hg2
        have hlen := length_gt_one_of_two_distinct hs g1 g2 hc1 hc2 hne
        refine ⟨.contMultipleGroups line, ?_, rfl⟩
        simp [classifyContinuationRow, hscan, except_bind_ok, hlen]
      · rcases contScan_ok_cols maps line row _ hs cs hscan n col hm hv with hne2 | heq
        · exact absurd hg hne2
        · exact absurd heq hid

/-- Processing a single leaf field whose (abbreviated) key is not a schema
column and not one of the special repeating-group keys: a null value is
skipped entirely, a non-null scalar is recorded as an unknown key; the row
is unchanged either way. -/
theorem go_unknown_leaf (eid k : String) (v : JVal)
    (recf : String → ConvState → List (String × JVal) → Except JsonError ConvState)
    (st : ConvState)
    (hsc : v.isScalar = true)
    (hc : csvHeaderNames.contains (mapAbbrev k) = false)
    (h1 : mapAbbrev k ≠ "nameParts")
    (h2 : mapAbbrev k ≠ "identifiers")
    (h3 : mapAbbrev k ≠ "states")
    (h4 : strEndsWith (mapAbbrev k) ".states" = false)
    (h5 : mapAbbrev k ≠ "roles") :
    convertFieldsGo csvHeaderNames eid recf "" st [(k, v)]
      = Except.ok (if v.isNull then st
          else { st with unknown_keys := insertIfAbsentStr (mapAbbrev k) st.unknown_keys }) := by
  have hfk : ("" : String) ++ mapAbbrev k = mapAbbrev k := string_nil_append _
  simp only [convertFieldsGo, hfk]
  have hb1 : (mapAbbrev k == "nameParts") = false := by simpa using h1
  have hb2 : (mapAbbrev k == "identifiers") = false := by simpa using h2
  have hb3 : (mapAbbrev k == "states") = false := by simpa using h3
  have hb5 : (mapAbbrev k == "roles") = false := by simpa using h5
  rw [hb1, hb2, hb3, h4, hb5]
  simp only [Bool.or_false, if_false]
  have hmem : ¬ (mapAbbrev k ∈ csvHeaderNames) := by simpa using hc
  cases v with
  | jnull => simp [convertFieldsGo, hmem, JVal.isNull]
  | jstr s => simp [convertFieldsGo, hmem, JVal.isNull]
  | jint i => simp [convertFieldsGo, hmem, JVal.isNull]
  | jfloat d => simp [convertFieldsGo, hmem, JVal.isNull]
  | jbool b => simp [convertFieldsGo, hmem, JVal.isNull]
  | jobj o => simp [JVal.isScalar] at hsc
  | jarr a => simp [JVal.isScalar] at hsc

/-- Encoding a record with `externalId` plus one unknown scalar leaf: the
conversion succeeds, the row holds only `externalId`, and the unknown-key
log holds the leaf key exactly when its value is not null. -/
theorem convert_json_unknown_leaf (e k : String) (v : JVal)
    (hsc : v.isScalar = true)
    (hc : csvHeaderNames.contains (mapAbbrev k) = false)
    (h1 : mapAbbrev k ≠ "nameParts")
    (h2 : mapAbbrev k ≠ "identifiers")
    (h3 : mapAbbrev k ≠ "states")
    (h4 : strEndsWith (mapAbbrev k) ".states" = false)
    (h5 : mapAbbrev k ≠ "roles") :
    convert_json [ .jobj [("externalId", .jstr e), (k, v)] ]
      = Except.ok ([[("externalId", e)]], csvHeaderNames,
          if v.isNull then [] else [mapAbbrev k]) := by
  have hstep1 : convertFieldsF csvHeaderNames e jsonConvertFuel ""
      ⟨[], [], []⟩ [("externalId", .jstr e), (k, v)]
      = convertFieldsGo csvHeaderNames e (convertFieldsF csvHeaderNames e 99) ""
          ⟨[("externalId", e)], [], []⟩ [(k, v)] := rfl
  have hstep2 := go_unknown_leaf e k v (convertFieldsF csvHeaderNames e 99)
      ⟨[("externalId", e)], [], []⟩ hsc hc h1 h2 h3 h4 h5
  show (match convertData csvHeaderNames [] [ .jobj [("externalId", .jstr e), (k, v)] ] with
        | Except.error err => Except.error err
        | Except.ok (records, unknown) =>
            Except.ok (records, csvHeaderNames, sortStrings unknown)) = _
  have hdata : convertData csvHeaderNames [] [ JVal.jobj [("externalId", .jstr e), (k, v)] ]
      = Except.ok ([[("externalId", e)]], if v.isNull then [] else [mapAbbrev k]) := by
    show (do
        let eidv ← jGet [("externalId", JVal.jstr e), (k, v)] "externalId"
        let st ← convertFieldsF csvHeaderNames (pyStr eidv) jsonConvertFuel ""
            ⟨[], [], []⟩ [("externalId", JVal.jstr e), (k, v)]
        let p ← convertData csvHeaderNames st.unknown_keys []
        Except.ok ((st.dest :: st.additional_lines) ++ p.1, p.2)) = _
    rw [show jGet [("externalId", JVal.jstr e), (k, v)] "externalId"
        = Except.ok (JVal.jstr e) from rfl, except_bind_ok]
    rw [show pyStr (JVal.jstr e) = e from rfl]
    rw [hstep1, hstep2, except_bind_ok]
    cases hv : v.isNull with
    | true => simp [convertData, except_bind_ok]
    | false => simp [convertData, except_bind_ok, insertIfAbsentStr]
  rw [hdata]
  cases hv : v.isNull with
  | true => rfl
  | false => rfl

/-- The `value[1:]` identifiers loop turns each further well-formed element
into one fresh row with exactly the group columns plus the identifier. -/
theorem convertIdentList_map (e : String) :
    ∀ l : List (String × String × String),
    convertIdentList e (l.map mkIdentJ) = Except.ok (l.map (identRowOf e)) := by
  intro l
  induction l with
  | nil => rfl
  | cons x rest ih =>
      rcases x with ⟨t, v, b⟩
      show (do
        let kvs ← convert_identifier_fields (mkIdentJ (t, v, b)) e
        let more ← convertIdentList e (rest.map mkIdentJ)
        Except.ok (mergeRow [] kvs :: more)) = _
      rw [show convert_identifier_fields (mkIdentJ (t, v, b)) e = Except.ok
            [("identifiers.type", t), ("identifiers.value", v),
             ("identifiers.issuingBody", b), ("externalId", e)] from rfl,
          except_bind_ok, ih, except_bind_ok]
      rfl

/-- The `value[1:]` states loop turns each further well-formed element into
one fresh row built from the group columns plus the identifier. -/
theorem convertStatesList_map (e fk : String) :
    ∀ l : List (String × String × String),
    convertStatesList e fk (l.map mkStateJ)
      = Except.ok (l.map (fun x => mergeRow []
          [(fk ++ ".validFrom", x.1), (fk ++ ".validTo", x.2.1),
           (fk ++ ".type", x.2.2), ("externalId", e)])) := by
  intro l
  induction l with
  | nil => rfl
  | cons x rest ih =>
      rcases x with ⟨f, t, ty⟩
      show (do
        let kvs ← convert_states_fields (mkStateJ (f, t, ty)) e fk
        let more ← convertStatesList e fk (rest.map mkStateJ)
        Except.ok (mergeRow [] kvs :: more)) = _
      rw [show convert_states_fields (mkStateJ (f, t, ty)) e fk = Except.ok
            [(fk ++ ".validFrom", f), (fk ++ ".validTo", t),
             (fk ++ ".type", ty), ("externalId", e)] from rfl,
          except_bind_ok, ih, except_bind_ok]
      rfl

/-- The `value[1:]` roles loop turns each further element into one fresh
row with the roles column plus the identifier. -/
theorem convertRolesList_map (e : String) :
    ∀ l : List String,
    convertRolesList e (l.map JVal.jstr) = l.map (roleRowOf e) := by
  intro l
  induction l with
  | nil => rfl
  | cons r rest ih =>
      show mergeRow [] (convert_roles_fields (JVal.jstr r) e)
          :: convertRolesList e (rest.map JVal.jstr) = _
      rw [ih]
      rfl

/-- Identifiers: the first element merges into the primary row, each
further element yields one additional row holding only the group columns
plus the identifier. -/
theorem c3_identifiers_part (e : String) (x : String × String × String)
    (rest : List (String × String × String)) :
    convert_json [ .jobj [("externalId", .jstr e),
        ("identifiers", .jarr (mkIdentJ x :: rest.map mkIdentJ))] ]
      = Except.ok (([("externalId", e), ("identifiers.type", x.1),
            ("identifiers.value", x.2.1), ("identifiers.issuingBody", x.2.2)]
          :: rest.map (identRowOf e)), csvHeaderNames, []) := by
  rcases x with ⟨t, v, b⟩
  have hdata : convertData csvHeaderNames []
      [ JVal.jobj [("externalId", .jstr e),
          ("identifiers", .jarr (mkIdentJ (t, v, b) :: rest.map mkIdentJ))] ]
      = Except.ok (([("externalId", e), ("identifiers.type", t),
            ("identifiers.value", v), ("identifiers.issuingBody", b)]
          :: rest.map (identRowOf e)), []) := by
    show (do
      let eidv ← jGet [("externalId", JVal.jstr e),
          ("identifiers", JVal.jarr (mkIdentJ (t, v, b) :: rest.map mkIdentJ))] "externalId"
      let st ← convertFieldsF csvHeaderNames (pyStr eidv) jsonConvertFuel ""
          ⟨[], [], []⟩ [("externalId", JVal.jstr e),
            ("identifiers", JVal.jarr (mkIdentJ (t, v, b) :: rest.map mkIdentJ))]
      let p ← convertData csvHeaderNames st.unknown_keys []
      Except.ok ((st.dest :: st.additional_lines) ++ p.1, p.2)) = _
    rw [show jGet [("externalId", JVal.jstr e),
          ("identifiers", JVal.jarr (mkIdentJ (t, v, b) :: rest.map mkIdentJ))] "externalId"
        = Except.ok (JVal.jstr e) from rfl, except_bind_ok]
    rw [show pyStr (JVal.jstr e) = e from rfl]
    rw [show convertFieldsF csvHeaderNames e jsonConvertFuel ""
          ⟨[], [], []⟩ [("externalId", JVal.jstr e),
            ("identifiers", JVal.jarr (mkIdentJ (t, v, b) :: rest.map mkIdentJ))]
        = (do
            let kvs ← convert_identifier_fields (mkIdentJ (t, v, b)) e
            let lines ← convertIdentList e (rest.map mkIdentJ)
            convertFieldsGo csvHeaderNames e (convertFieldsF csvHeaderNames e 99) ""
              ⟨mergeRow [("externalId", e)] kvs, [] ++ lines, []⟩ []) from rfl]
    rw [show convert_identifier_fields (mkIdentJ (t, v, b)) e = Except.ok
          [("identifiers.type", t), ("identifiers.value", v),
           ("identifiers.issuingBody", b), ("externalId", e)] from rfl,
        except_bind_ok, convertIdentList_map e rest, except_bind_ok]
    rw [show convertFieldsGo csvHeaderNames e (convertFieldsF csvHeaderNames e 99) ""
          ⟨mergeRow [("externalId", e)]
            [("identifiers.type", t), ("identifiers.value", v),
             ("identifiers.issuingBody", b), ("externalId", e)],
           [] ++ rest.map (identRowOf e), []⟩ []
        = Except.ok ⟨[("externalId", e), ("identifiers.type", t),
            ("identifiers.value", v), ("identifiers.issuingBody", b)],
           rest.map (identRowOf e), []⟩ from rfl, except_bind_ok]
    rw [show convertData csvHeaderNames [] [] = Except.ok ([], []) from rfl,
        except_bind_ok]
    simp
  show (match convertData csvHeaderNames []
      [ JVal.jobj [("externalId", .jstr e),
          ("identifiers", .jarr (mkIdentJ (t, v, b) :: rest.map mkIdentJ))] ] with
    | Except.error err => Except.error err
    | Except.ok (records, unknown) =>
        Except.ok (records, csvHeaderNames, sortStrings unknown)) = _
  rw [hdata]
  rfl

/-- Top-level states: the first element merges into the primary row, each
further element yields one additional row holding only the group columns
plus the identifier. -/
theorem c3_states_part (e : String) (x : String × String × String)
    (rest : List (String × String × String)) :
    convert_json [ .jobj [("externalId", .jstr e),
        ("states", .jarr (mkStateJ x :: rest.map mkStateJ))] ]
      = Except.ok (([("externalId", e), ("states.validFrom", x.1),
            ("states.validTo", x.2.1), ("states.type", x.2.2)]
          :: rest.map (stateRowOf e "states")), csvHeaderNames, []) := by
  rcases x with ⟨f, t, ty⟩
  have hfun : (fun y : String × String × String => mergeRow []
      [("states" ++ ".validFrom", y.1), ("states" ++ ".validTo", y.2.1),
       ("states" ++ ".type", y.2.2), ("externalId", e)]) = stateRowOf e "states" :=
    funext (fun y => rfl)
  have hdata : convertData csvHeaderNames []
      [ JVal.jobj [("externalId", .jstr e),
          ("states", .jarr (mkStateJ (f, t, ty) :: rest.map mkStateJ))] ]
      = Except.ok (([("externalId", e), ("states.validFrom", f),
            ("states.validTo", t), ("states.type", ty)]
          :: rest.map (stateRowOf e "states")), []) := by
    show (do
      let eidv ← jGet [("externalId", JVal.jstr e),
          ("states", JVal.jarr (mkStateJ (f, t, ty) :: rest.map mkStateJ))] "externalId"
      let st ← convertFieldsF csvHeaderNames (pyStr eidv) jsonConvertFuel ""
          ⟨[], [], []⟩ [("externalId", JVal.jstr e),
            ("states", JVal.jarr (mkStateJ (f, t, ty) :: rest.map mkStateJ))]
      let p ← convertData csvHeaderNames st.unknown_keys []
      Except.ok ((st.dest :: st.additional_lines) ++ p.1, p.2)) = _
    rw [show jGet [("externalId", JVal.jstr e),
          ("states", JVal.jarr (mkStateJ (f, t, ty) :: rest.map mkStateJ))] "externalId"
        = Except.ok (JVal.jstr e) from rfl, except_bind_ok]
    rw [show pyStr (JVal.jstr e) = e from rfl]
    rw [show convertFieldsF csvHeaderNames e jsonConvertFuel ""
          ⟨[], [], []⟩ [("externalId", JVal.jstr e),
            ("states", JVal.jarr (mkStateJ (f, t, ty) :: rest.map mkStateJ))]
        = (do
            let kvs ← convert_states_fields (mkStateJ (f, t, ty)) e "states"
            let lines ← convertStatesList e "states" (rest.map mkStateJ)
            convertFieldsGo csvHeaderNames e (convertFieldsF csvHeaderNames e 99) ""
              ⟨mergeRow [("externalId", e)] kvs, [] ++ lines, []⟩ []) from rfl]
    rw [show convert_states_fields (mkStateJ (f, t, ty)) e "states" = Except.ok
          [("states.validFrom", f), ("states.validTo", t),
           ("states.type", ty), ("externalId", e)] from rfl,
        except_bind_ok, convertStatesList_map e "states" rest, except_bind_ok]
    rw [hfun]
    rw [show convertFieldsGo csvHeaderNames e (convertFieldsF csvHeaderNames e 99) ""
          ⟨mergeRow [("externalId", e)]
            [("states.validFrom", f), ("states.validTo", t),
             ("states.type", ty), ("externalId", e)],
           [] ++ rest.map (stateRowOf e "states"), []⟩ []
        = Except.ok ⟨[("externalId", e), ("states.validFrom", f),
            ("states.validTo", t), ("states.type", ty)],
           rest.map (stateRowOf e "states"), []⟩ from rfl, except_bind_ok]
    rw [show convertData csvHeaderNames [] [] = Except.ok ([], []) from rfl,
        except_bind_ok]
    simp
  show (match convertData csvHeaderNames []
      [ JVal.jobj [("externalId", .jstr e),
          ("states", .jarr (mkStateJ (f, t, ty) :: rest.map mkStateJ))] ] with
    | Except.error err => Except.error err
    | Except.ok (records, unknown) =>
        Except.ok (records, csvHeaderNames, sortStrings unknown)) = _
  rw [hdata]
  rfl

/-- States nested under a sub-object (`legalEntity.states`): the first
element merges into the primary row, each further element yields one
additional row holding only the group columns plus the identifier. -/
theorem c3_nested_states_part (e : String) (x : String × String × String)
    (rest : List (String × String × String)) :
    convert_json [ .jobj [("externalId", .jstr e),
        ("legalEntity", .jobj [("states", .jarr (mkStateJ x :: rest.map mkStateJ))])] ]
      = Except.ok (([("externalId", e), ("legalEntity.states.validFrom", x.1),
            ("legalEntity.states.validTo", x.2.1), ("legalEntity.states.type", x.2.2)]
          :: rest.map (stateRowOf e "legalEntity.states")), csvHeaderNames, []) := by
  rcases x with ⟨f, t, ty⟩
  have hfun : (fun y : String × String × String => mergeRow []
      [("legalEntity.states" ++ ".validFrom", y.1), ("legalEntity.states" ++ ".validTo", y.2.1),
       ("legalEntity.states" ++ ".type", y.2.2), ("externalId", e)])
      = stateRowOf e "legalEntity.states" :=
    funext (fun y => rfl)
  have hdata : convertData csvHeaderNames []
      [ JVal.jobj [("externalId", .jstr e),
          ("legalEntity", .jobj [("states", .jarr (mkStateJ (f, t, ty) :: rest.map mkStateJ))])] ]
      = Except.ok (([("externalId", e), ("legalEntity.states.validFrom", f),
            ("legalEntity.states.validTo", t), ("legalEntity.states.type", ty)]
          :: rest.map (stateRowOf e "legalEntity.states")), []) := by
    show (do
      let eidv ← jGet [("externalId", JVal.jstr e),
          ("legalEntity", JVal.jobj [("states", JVal.jarr (mkStateJ (f, t, ty) :: rest.map mkStateJ))])]
          "externalId"
      let st ← convertFieldsF csvHeaderNames (pyStr eidv) jsonConvertFuel ""
          ⟨[], [], []⟩ [("externalId", JVal.jstr e),
            ("legalEntity", JVal.jobj [("states", JVal.jarr (mkStateJ (f, t, ty) :: rest.map mkStateJ))])]
      let p ← convertData csvHeaderNames st.unknown_keys []
      Except.ok ((st.dest :: st.additional_lines) ++ p.1, p.2)) = _
    rw [show jGet [("externalId", JVal.jstr e),
          ("legalEntity", JVal.jobj [("states", JVal.jarr (mkStateJ (f, t, ty) :: rest.map mkStateJ))])]
          "externalId"
        = Except.ok (JVal.jstr e) from rfl, except_bind_ok]
    rw [show pyStr (JVal.jstr e) = e from rfl]
    rw [show convertFieldsF csvHeaderNames e jsonConvertFuel ""
          ⟨[], [], []⟩ [("externalId", JVal.jstr e),
            ("legalEntity", JVal.jobj [("states", JVal.jarr (mkStateJ (f, t, ty) :: rest.map mkStateJ))])]
        = (do
            let st2 ← (do
              let kvs ← convert_states_fields (mkStateJ (f, t, ty)) e "legalEntity.states"
              let lines ← convertStatesList e "legalEntity.states" (rest.map mkStateJ)
              convertFieldsGo csvHeaderNames e (convertFieldsF csvHeaderNames e 98) "legalEntity."
                ⟨mergeRow [("externalId", e)] kvs, [] ++ lines, []⟩ [])
            convertFieldsGo csvHeaderNames e (convertFieldsF csvHeaderNames e 99) "" st2 [])
        from rfl]
    rw [show convert_states_fields (mkStateJ (f, t, ty)) e "legalEntity.states" = Except.ok
          [("legalEntity.states.validFrom", f), ("legalEntity.states.validTo", t),
           ("legalEntity.states.type", ty), ("externalId", e)] from rfl,
        except_bind_ok, convertStatesList_map e "legalEntity.states" rest, except_bind_ok]
    rw [hfun]
    rw [show convertFieldsGo csvHeaderNames e (convertFieldsF csvHeaderNames e 98) "legalEntity."
          ⟨mergeRow [("externalId", e)]
            [("legalEntity.states.validFrom", f), ("legalEntity.states.validTo", t),
             ("legalEntity.states.type", ty), ("externalId", e)],
           [] ++ rest.map (stateRowOf e "legalEntity.states"), []⟩ []
        = Except.ok ⟨[("externalId", e), ("legalEntity.states.validFrom", f),
            ("legalEntity.states.validTo", t), ("legalEntity.states.type", ty)],
           rest.map (stateRowOf e "legalEntity.states"), []⟩ from rfl, except_bind_ok]
    rw [show ∀ st2 : ConvState, convertFieldsGo csvHeaderNames e
          (convertFieldsF csvHeaderNames e 99) "" st2 [] = Except.ok st2 from fun _ => rfl,
        except_bind_ok]
    rw [show convertData csvHeaderNames [] [] = Except.ok ([], []) from rfl,
        except_bind_ok]
    simp
  show (match convertData csvHeaderNames []
      [ JVal.jobj [("externalId", .jstr e),
          ("legalEntity", .jobj [("states", .jarr (mkStateJ (f, t, ty) :: rest.map mkStateJ))])] ] with
    | Except.error err => Except.error err
    | Except.ok (records, unknown) =>
        Except.ok (records, csvHeaderNames, sortStrings unknown)) = _
  rw [hdata]
  rfl

/-- Roles: the first element merges into the primary row, each further
element yields one additional row holding the roles column plus the
identifier. -/
theorem c3_roles_part (e r : String) (rest : List String) :
    convert_json [ .jobj [("externalId", .jstr e),
        ("roles", .jarr (.jstr r :: rest.map JVal.jstr))] ]
      = Except.ok (([("externalId", e), ("roles", r)]
          :: rest.map (roleRowOf e)), csvHeaderNames, []) := by
  have hdata : convertData csvHeaderNames []
      [ JVal.jobj [("externalId", .jstr e),
          ("roles", .jarr (.jstr r :: rest.map JVal.jstr))] ]
      = Except.ok (([("externalId", e), ("roles", r)] :: rest.map (roleRowOf e)), []) := by
    show (do
      let eidv ← jGet [("externalId", JVal.jstr e),
          ("roles", JVal.jarr (JVal.jstr r :: rest.map JVal.jstr))] "externalId"
      let st ← convertFieldsF csvHeaderNames (pyStr eidv) jsonConvertFuel ""
          ⟨[], [], []⟩ [("externalId", JVal.jstr e),
            ("roles", JVal.jarr (JVal.jstr r :: rest.map JVal.jstr))]
      let p ← convertData csvHeaderNames st.unknown_keys []
      Except.ok ((st.dest :: st.additional_lines) ++ p.1, p.2)) = _
    rw [show jGet [("externalId", JVal.jstr e),
          ("roles", JVal.jarr (JVal.jstr r :: rest.map JVal.jstr))] "externalId"
        = Except.ok (JVal.jstr e) from rfl, except_bind_ok]
    rw [show pyStr (JVal.jstr e) = e from rfl]
    rw [show convertFieldsF csvHeaderNames e jsonConvertFuel ""
          ⟨[], [], []⟩ [("externalId", JVal.jstr e),
            ("roles", JVal.jarr (JVal.jstr r :: rest.map JVal.jstr))]
        = convertFieldsGo csvHeaderNames e (convertFieldsF csvHeaderNames e 99) ""
            ⟨mergeRow [("externalId", e)] (convert_roles_fields (JVal.jstr r) e),
             [] ++ convertRolesList e (rest.map JVal.jstr), []⟩ [] from rfl]
    rw [convertRolesList_map e rest]
    rw [show convertFieldsGo csvHeaderNames e (convertFieldsF csvHeaderNames e 99) ""
          ⟨mergeRow [("externalId", e)] (convert_roles_fields (JVal.jstr r) e),
           [] ++ rest.map (roleRowOf e), []⟩ []
        = Except.ok ⟨[("externalId", e), ("roles", r)], rest.map (roleRowOf e), []⟩ from rfl,
        except_bind_ok]
    rw [show convertData csvHeaderNames [] [] = Except.ok ([], []) from rfl,
        except_bind_ok]
    simp
  show (match convertData csvHeaderNames []
      [ JVal.jobj [("externalId", .jstr e),
          ("roles", .jarr (.jstr r :: rest.map JVal.jstr))] ] with
    | Except.error err => Except.error err
    | Except.ok (records, unknown) =>
        Except.ok (records, csvHeaderNames, sortStrings unknown)) = _
  rw [hdata]
  rfl

/-! ## Claim theorems -/

/-- C1: the claim states that a row on which some but not all
file-header-present members of a RelatedColumnSet are non-empty is rejected
with a ValidationError naming the set and the line.  The code cannot do
this: the row-level check looks the sets' column-name strings up in a dict
keyed by `Column` objects, so it never fires (first conjunct); a decode
configured like `convert_csv.convert` (restricted to its valid array groups)
accepts a row with the physical longitude set and the latitude empty (second
conjunct), although the specification-side rendering of the rule flags
exactly that row as a violation (third conjunct). -/
theorem C1_related_check_dead :
    (∀ (line : Nat) (cti : List (Column × Nat)) (row : List String)
       (rels : List (List String)),
       relatedCheck line cti row rels = Except.ok ()) ∧
    exceptIsOk (read_header_csv_with_reader coordCfg c1Header [c1Row]) = true ∧
    (buildReaderMaps coordCfg c1Header).map
        (fun m => relatedSetViolatedSpec m.column_name_to_index
          (convertCsvRelatedColumns.getD 0 []) c1Row) = Except.ok true :=
  ⟨fun line cti row rels => relatedCheck_never_fires line cti row rels, rfl, rfl⟩

/-- C2 counterexample: encode raises a KeyError as soon as a record lacks
the `externalId` key, contradicting the claim that it never raises. -/
theorem C2_counterexample_missing_externalId :
    convert_json [ .jobj [] ] = Except.error (.keyError "externalId") := rfl

/-- C2 (amended): encode degrades gracefully for unknown scalar leaf keys —
they are recorded into the unknown-key log and the document is still
returned — but it does raise a KeyError when a record lacks `externalId` or
when an identifiers element lacks `type`, `value` or `issuingBody`. -/
theorem C2_amended_encode_tolerance :
    (∀ (e k s : String),
       csvHeaderNames.contains (mapAbbrev k) = false →
       mapAbbrev k ≠ "nameParts" → mapAbbrev k ≠ "identifiers" →
       mapAbbrev k ≠ "states" → strEndsWith (mapAbbrev k) ".states" = false →
       mapAbbrev k ≠ "roles" →
       convert_json [ .jobj [("externalId", .jstr e), (k, .jstr s)] ]
         = Except.ok ([[("externalId", e)]], csvHeaderNames, [mapAbbrev k])) ∧
    convert_json [ .jobj [] ] = Except.error (.keyError "externalId") ∧
    convert_json [ .jobj [("externalId", .jstr "A1"), ("identifiers", .jarr [ .jobj [] ])] ]
      = Except.error (.keyError "type") ∧
    convert_json [ .jobj [("externalId", .jstr "A1"),
        ("identifiers", .jarr [ .jobj [("type", .jstr "LEI")] ])] ]
      = Except.error (.keyError "value") ∧
    convert_json [ .jobj [("externalId", .jstr "A1"),
        ("identifiers", .jarr [ .jobj [("type", .jstr "LEI"), ("value", .jstr "1")] ])] ]
      = Except.error (.keyError "issuingBody") :=
  ⟨fun e k s hc h1 h2 h3 h4 h5 =>
      convert_json_unknown_leaf e k (.jstr s) rfl hc h1 h2 h3 h4 h5,
   rfl, rfl, rfl, rfl⟩

/-- C2 witness: a record with an unknown scalar leaf converts successfully
with the leaf logged as an unknown key. -/
theorem C2_amended_witness :
    convert_json [ .jobj [("externalId", .jstr "A1"), ("bogus", .jstr "x")] ]
      = Except.ok ([[("externalId", "A1")]], csvHeaderNames, ["bogus"]) :=
  C2_amended_encode_tolerance.1 "A1" "bogus" "x" rfl (by decide) (by decide)
    (by decide) rfl (by decide)

/-- C3 counterexample: a record whose `nameParts` holds two elements
produces a single row with both parts in the `name1`/`name2` columns of the
primary row — name parts do not generate additional rows, contradicting the
claim's statement for that group. -/
theorem C3_counterexample_nameParts :
    convert_json [ .jobj [("externalId", .jstr "A1"),
        ("nameParts", .jarr [.jstr "x", .jstr "y"])] ]
      = Except.ok ([[("externalId", "A1"), ("name1", "x"), ("name2", "y")]],
          csvHeaderNames, []) := rfl

/-- C3 (amended): for the repeating groups identifiers, states (top-level
and nested under a sub-object) and roles, the first element merges into the
record's primary row and each further element produces one additional row
holding only the identifier plus that group's own columns; name parts, by
contrast, merge entirely into the primary row as `name1..nameN`. -/
theorem C3_amended_repeating_groups :
    (∀ (e : String) (x : String × String × String)
       (rest : List (String × String × String)),
       convert_json [ .jobj [("externalId", .jstr e),
           ("identifiers", .jarr (mkIdentJ x :: rest.map mkIdentJ))] ]
         = Except.ok (([("externalId", e), ("identifiers.type", x.1),
               ("identifiers.value", x.2.1), ("identifiers.issuingBody", x.2.2)]
             :: rest.map (identRowOf e)), csvHeaderNames, [])) ∧
    (∀ (e : String) (x : String × String × String)
       (rest : List (String × String × String)),
       convert_json [ .jobj [("externalId", .jstr e),
           ("states", .jarr (mkStateJ x :: rest.map mkStateJ))] ]
         = Except.ok (([("externalId", e), ("states.validFrom", x.1),
               ("states.validTo", x.2.1), ("states.type", x.2.2)]
             :: rest.map (stateRowOf e "states")), csvHeaderNames, [])) ∧
    (∀ (e : String) (x : String × String × String)
       (rest : List (String × String × String)),
       convert_json [ .jobj [("externalId", .jstr e),
           ("legalEntity", .jobj [("states", .jarr (mkStateJ x :: rest.map mkStateJ))])] ]
         = Except.ok (([("externalId", e), ("legalEntity.states.validFrom", x.1),
               ("legalEntity.states.validTo", x.2.1), ("legalEntity.states.type", x.2.2)]
             :: rest.map (stateRowOf e "legalEntity.states")), csvHeaderNames, [])) ∧
    (∀ (e r : String) (rest : List String),
       convert_json [ .jobj [("externalId", .jstr e),
           ("roles", .jarr (.jstr r :: rest.map JVal.jstr))] ]
         = Except.ok (([("externalId", e), ("roles", r)]
             :: rest.map (roleRowOf e)), csvHeaderNames, [])) :=
  ⟨c3_identifiers_part, c3_states_part, c3_nested_states_part, c3_roles_part⟩

/-- C4: the claimed end-to-end scenario cannot run: `convert_csv.convert`
configures array groups whose prefixes (`legalEntity.states.`,
`site.states.`, `address.states.`) match no column of the domain schema, so
the decode raises at configuration time for every input, this scenario
included (first conjunct).  Restricted to the valid groups, the scenario
yields exactly the claimed single record (second conjunct), confirming the
claim as the intended behaviour. -/
theorem C4_domain_decode_always_fails :
    (∀ (headerline : List String) (rows : List (List String)),
       convert_csv headerline rows
         = Except.error (.unknownArrayPrefixCol "legalEntity.states.")) ∧
    (read_header_csv_with_reader coordCfg c4Header c4Rows).map (fun r => r.1)
      = Except.ok [c4Expected] :=
  ⟨fun _ _ => rfl, rfl⟩

/-- C5: a continuation row with zero populated array groups, with two
different populated groups, or with a populated non-group column other than
the identifier makes the classification the row loop invokes fail with a
ContinuationError (first conjunct, universally), and three concrete decodes
fail end to end with the three ContinuationErrors (remaining conjuncts). -/
theorem C5_continuation_row_failures :
    (∀ (maps : ReaderMaps) (line : Nat) (row : List String),
       ((∀ (n : Nat) (col : Column), (n, col) ∈ maps.column_index_to_column →
           cell row n ≠ "" →
           assocGet maps.array_column_name_to_array_index col.column_name = Option.none)
        ∨ (∃ n1 c1 g1 n2 c2 g2, (n1, c1) ∈ maps.column_index_to_column ∧
             (n2, c2) ∈ maps.column_index_to_column ∧
             cell row n1 ≠ "" ∧ cell row n2 ≠ "" ∧
             assocGet maps.array_column_name_to_array_index c1.column_name = Option.some g1 ∧
             assocGet maps.array_column_name_to_array_index c2.column_name = Option.some g2 ∧
             g1 ≠ g2)
        ∨ (∃ n col, (n, col) ∈ maps.column_index_to_column ∧ cell row n ≠ "" ∧
             assocGet maps.array_column_name_to_array_index col.column_name = Option.none ∧
             Option.some n ≠ maps.identifier_column_index)) →
       ∃ e, classifyContinuationRow maps line row = Except.error e ∧
            e.isContinuationError = true) ∧
    read_header_csv_with_reader c5Cfg c5Header
        [["A1", "a", "LEI", "1", ""], ["A1", "", "", "", ""]]
      = Except.error (.contNoGroup 3) ∧
    read_header_csv_with_reader c5Cfg c5Header
        [["A1", "a", "LEI", "1", ""], ["A1", "", "TAX", "", "R"]]
      = Except.error (.contMultipleGroups 3) ∧
    read_header_csv_with_reader c5Cfg c5Header
        [["A1", "a", "LEI", "1", ""], ["A1", "b", "TAX", "", ""]]
      = Except.error (.contNormalColumn 3 "name1") :=
  ⟨classifyContinuation_fails, rfl, rfl, rfl⟩

/-- C5 witness: a continuation row with a populated normal column fails the
classification. -/
theorem C5_witness :
    ∃ e, classifyContinuationRow c5WitnessMaps 3 ["A1", "x"] = Except.error e ∧
         e.isContinuationError = true :=
  C5_continuation_row_failures.1 c5WitnessMaps 3 ["A1", "x"]
    (Or.inr (Or.inr ⟨1, ⟨"name1", .str, .ToNone, true, Option.none⟩,
      by decide, by decide, rfl, by decide⟩))

/-- C6: a row whose identifier differs from the immediately preceding row's
identifier but was already seen earlier fails with the duplicate-identifier
ContinuationError: universally at the row-role classification the row loop
invokes, and end to end for identifiers A1, B1, A1. -/
theorem C6_nonadjacent_duplicate_identifier :
    (∀ (line i : Nat) (row : List String) (prevId : Option String)
       (doneIds : List String),
       Option.some (cell row i) ≠ prevId →
       doneIds.contains (cell row i) = true →
       classifyRowRole line (Option.some i) row prevId doneIds
         = Except.error (.duplicateIdentifier line (cell row i))) ∧
    read_header_csv_with_reader c6Cfg ["externalId"] [["A1"], ["B1"], ["A1"]]
      = Except.error (.duplicateIdentifier 4 "A1") := by
  constructor
  · intro line i row prevId doneIds h1 h2
    simp [classifyRowRole, h1, h2]
    simpa using h2
  · rfl

/-- C6 witness: an identifier equal to an earlier, non-adjacent one is
classified as a duplicate. -/
theorem C6_witness :
    classifyRowRole 1 (Option.some 0) ["A1"] (Option.some "B1") ["A1"]
      = Except.error (.duplicateIdentifier 1 "A1") :=
  C6_nonadjacent_duplicate_identifier.1 1 0 ["A1"] (Option.some "B1") ["A1"]
    (by decide) (by decide)

/-- C7: the empty-cell policy is evaluated before type conversion: an empty
cell errors under NotOK, becomes None with conversion skipped under ToNone,
keeps the empty string under OK (string columns), and under a literal
default policy the default is substituted and then converted by the column's
normal type rule. -/
theorem C7_empty_policy_before_conversion :
    ∀ (line : Nat) (col : Column),
    (col.empty = .NotOK →
      convertCell line col "" = Except.error (.emptyNotAllowed line col.column_name)) ∧
    (col.empty = .ToNone → convertCell line col "" = Except.ok (PyVal.none, true)) ∧
    (col.empty = .OK → col.column_type = .str →
      convertCell line col "" = Except.ok (PyVal.str "", true)) ∧
    (∀ d, col.empty = .defaultVal d →
      convertCell line col "" = (typeConvert line col d).map (fun v => (v, true))) := by
  intro line col
  refine ⟨fun h => ?_, fun h => ?_, fun h ht => ?_, fun d h => ?_⟩
  · simp [convertCell, h]
  · simp [convertCell, h]
  · simp [convertCell, h, ht, typeConvert, Except.map]
  · simp [convertCell, h]

/-- C7 witness: the four policies at concrete columns. -/
theorem C7_witness :
    convertCell 7 ⟨"a", ColType.str, .NotOK, false, Option.none⟩ ""
      = Except.error (.emptyNotAllowed 7 "a") ∧
    convertCell 7 ⟨"b", ColType.int, .ToNone, false, Option.none⟩ ""
      = Except.ok (PyVal.none, true) ∧
    convertCell 7 ⟨"c", ColType.str, .OK, false, Option.none⟩ ""
      = Except.ok (PyVal.str "", true) ∧
    convertCell 7 ⟨"d", ColType.int, .defaultVal "9", false, Option.none⟩ ""
      = (typeConvert 7 ⟨"d", ColType.int, .defaultVal "9", false, Option.none⟩ "9").map
          (fun v => (v, true)) :=
  ⟨(C7_empty_policy_before_conversion 7 _).1 rfl,
   (C7_empty_policy_before_conversion 7 _).2.1 rfl,
   (C7_empty_policy_before_conversion 7 _).2.2.1 rfl rfl,
   (C7_empty_policy_before_conversion 7 _).2.2.2 "9" rfl⟩

/-- C8 counterexample: the claim says that in a float-typed column anything
other than a ','- or '.'-separated decimal raises a ValidationError, but the
cell "1e3" — which is neither — converts successfully to 1000.0, because
Python `float()` also accepts exponent notation. -/
theorem C8_counterexample_exponent_ok :
    typeConvert 2 c8FloatCol "1e3"
      = Except.ok (.float (.finite ⟨1000, 0⟩)) := rfl

/-- C8 (amended): in a float-typed column both ',' and '.' are accepted as
decimal separator — "3,14" and "3.14" decode to the decimal 3.14 (the scaled
decimal 314 x 10^-2) — and a cell whose comma-normalised text is not a valid
Python float literal raises a ValidationError naming the line and the
column; but the accepted literals also include exponent notation, the
inf/infinity/nan spellings, underscore digit separators and surrounding
whitespace, which convert successfully instead of raising.  Encoding the
float 3.14 produces "3,14" — a round trip for this value. -/
theorem C8_amended_float_conversion :
    (∀ (line : Nat) (col : Column), col.column_type = .float →
       typeConvert line col "3,14" = Except.ok (.float (.finite ⟨314, 2⟩)) ∧
       typeConvert line col "3.14" = Except.ok (.float (.finite ⟨314, 2⟩))) ∧
    (∀ (line : Nat) (col : Column) (s : String), col.column_type = .float →
       parseFloat (charReplace s ',' '.') = Option.none →
       typeConvert line col s = Except.error (.typeError line col.column_name)) ∧
    typeConvert 2 c8FloatCol "1e3" = Except.ok (.float (.finite ⟨1000, 0⟩)) ∧
    typeConvert 2 c8FloatCol "3,1e4" = Except.ok (.float (.finite ⟨31000, 0⟩)) ∧
    typeConvert 2 c8FloatCol "1_0" = Except.ok (.float (.finite ⟨10, 0⟩)) ∧
    typeConvert 2 c8FloatCol "inf" = Except.ok (.float (.inf false)) ∧
    typeConvert 2 c8FloatCol "-Infinity" = Except.ok (.float (.inf true)) ∧
    typeConvert 2 c8FloatCol "nan" = Except.ok (.float .nan) ∧
    parseFloat " 3.14 " = Option.some (.finite ⟨314, 2⟩) ∧
    convert_value (.jfloat (.finite ⟨314, 2⟩)) = "3,14" := by
  refine ⟨fun line col h => ?_, fun line col s h hp => ?_,
    rfl, rfl, rfl, rfl, rfl, rfl, rfl, rfl⟩
  · constructor <;> simp [typeConvert, h] <;> rfl
  · simp [typeConvert, h, hp]

/-- C8 witness: the domain longitude column decodes "3,14" and rejects
"abc", whose comma-normalised text is not a float literal. -/
theorem C8_amended_witness :
    typeConvert 2 c8FloatCol "3,14" = Except.ok (.float (.finite ⟨314, 2⟩)) ∧
    typeConvert 2 c8FloatCol "abc"
      = Except.error (.typeError 2 c8FloatCol.column_name) :=
  ⟨(C8_amended_float_conversion.1 2 c8FloatCol rfl).1,
   C8_amended_float_conversion.2.1 2 c8FloatCol "abc" rfl rfl⟩

/-- C9: on a continuation row, a column of the active group whose cell is
empty is skipped before the empty-cell policy and the type conversion run
(first conjunct, universally over the column loop), so an empty NotOK group
column does not raise and the appended element keeps the constructor default
None for that field (second conjunct, end to end). -/
theorem C9_continuation_skips_empty_group_cols :
    (∀ (maps : ReaderMaps) (line : Nat) (row : List String) (agName : String)
       (agPfx : Option String) (contCols : List String) (st : Obj × Option Obj)
       (n : Nat) (col : Column) (rest : List (Nat × Column)),
       contCols.contains col.column_name = false →
       contRowCols maps line row agName agPfx contCols st ((n, col) :: rest)
         = contRowCols maps line row agName agPfx contCols st rest) ∧
    (read_header_csv_with_reader c9Cfg
        ["externalId", "identifiers.type", "identifiers.value"]
        [["A1", "LEI", "1"], ["A1", "TAX", ""]]).map (fun r => r.1)
      = Except.ok [c9Expected] := by
  constructor
  · intro maps line row agName agPfx contCols st n col rest h
    have hm : ¬ (col.column_name ∈ contCols) := by simpa using h
    simp [contRowCols, hm]
  · rfl

/-- C9 witness: a group column absent from the populated set is skipped by
the continuation column loop. -/
theorem C9_witness :
    contRowCols c5WitnessMaps 3 ["A1", "TAX", ""] "identifiers"
        (Option.some "identifiers.") ["identifiers.type"] ([], Option.none)
        [(2, ⟨"identifiers.value", ColType.str, .NotOK, false, Option.none⟩)]
      = contRowCols c5WitnessMaps 3 ["A1", "TAX", ""] "identifiers"
        (Option.some "identifiers.") ["identifiers.type"] ([], Option.none) [] :=
  C9_continuation_skips_empty_group_cols.1 c5WitnessMaps 3 ["A1", "TAX", ""]
    "identifiers" (Option.some "identifiers.") ["identifiers.type"]
    ([], Option.none) 2 ⟨"identifiers.value", ColType.str, .NotOK, false, Option.none⟩
    [] (by decide)

/-- C10: during encode, an unknown leaf holding null is silently dropped —
omitted from the row and never recorded as an unknown key — while the same
leaf holding a non-null scalar is recorded once (and still omitted from the
row). -/
theorem C10_null_unknown_leaf_dropped :
    ∀ (e k : String),
      csvHeaderNames.contains (mapAbbrev k) = false →
      mapAbbrev k ≠ "nameParts" → mapAbbrev k ≠ "identifiers" →
      mapAbbrev k ≠ "states" → strEndsWith (mapAbbrev k) ".states" = false →
      mapAbbrev k ≠ "roles" →
      convert_json [ .jobj [("externalId", .jstr e), (k, .jnull)] ]
        = Except.ok ([[("externalId", e)]], csvHeaderNames, []) ∧
      (∀ s : String, convert_json [ .jobj [("externalId", .jstr e), (k, .jstr s)] ]
        = Except.ok ([[("externalId", e)]], csvHeaderNames, [mapAbbrev k])) :=
  fun e k hc h1 h2 h3 h4 h5 =>
    ⟨convert_json_unknown_leaf e k .jnull rfl hc h1 h2 h3 h4 h5,
     fun s => convert_json_unknown_leaf e k (.jstr s) rfl hc h1 h2 h3 h4 h5⟩

/-- C10 witness: an unknown leaf holding null is dropped without being
logged. -/
theorem C10_witness :
    convert_json [ .jobj [("externalId", .jstr "A1"), ("bogus", .jnull)] ]
      = Except.ok ([[("externalId", "A1")]], csvHeaderNames, []) :=
  (C10_null_unknown_leaf_dropped "A1" "bogus" rfl (by decide) (by decide)
    (by decide) rfl (by decide)).1

end Bpdm
